import Mathlib

/-!
REX-Ray bring-up (`rexray.go`) and executor linking (`executors.go`).

A shallow embedding of the bring-up code of `src/rexray.go` and of the build
constraints of `src/libstorage/imports/executors/executors.go`.

Conventions of the embedding.

* The process environment is a total map from variable names to values, the
  value `""` standing for "unset": the program reads the environment only
  through `os.Getenv`, which cannot tell the two apart.  `os.Setenv` is a
  point update; its error cases (empty key, `=` or NUL in the key, NUL in the
  value) cannot arise here, because every key is a literal and every value
  written is a level name, the literal `"true"`, the literal `"rexray"`, or a
  string the operating system handed to the process (environment, argv).
* Process-global variables (`core.Debug`, `apitypes.Debug`, the level of the
  standard logrus logger) are fields of an explicit `World` that is passed
  through every function that touches them.
* Library functions the code calls (`logrus.ParseLevel`, `Level.String`,
  `strconv.ParseBool`, `os.MkdirAll`, `os.Create`, `gotil.FileExists`) are
  modelled after their Go sources.  Functions and constants that `rexray.go`
  uses from other packages of the code base and from the configuration library
  (`util.FindFlagVal`, `util.ValidateConfig`, `utils.NewPathConfig`,
  `apitypes.ConfigLogLevel`, `gofig`) are parameters.
* Where a statement depends on how the configuration library resolves a key,
  the library is the `Resolver` below, which follows the design document's
  description of key resolution.
-/

namespace Rexray

/-! ## logrus and strconv -/

/-- The `logrus.Level` constants, in the order of their numeric values 0..6. -/
inductive Level where
  | PanicLevel
  | FatalLevel
  | ErrorLevel
  | WarnLevel
  | InfoLevel
  | DebugLevel
  | TraceLevel
  deriving DecidableEq, Repr

/-- The rune mapping of Go `unicode.ToLower`, as far as it can produce an ASCII
letter: `A`..`Z`, the Kelvin sign U+212A and the dotted capital I U+0130.
Every other rune is mapped by Go to a rune outside ASCII or to itself, which
cannot make a string equal to one of the level names. -/
def toLowerRune (c : Char) : Char :=
  if c = Char.ofNat 0x212A then 'k'
  else if c = Char.ofNat 0x130 then 'i'
  else if 'A' ≤ c ∧ c ≤ 'Z' then Char.ofNat (c.toNat + 32)
  else c

/-- Go `strings.ToLower`. -/
def ToLower (s : String) : String := String.mk (s.data.map toLowerRune)

/-- The function `logrus.ParseLevel`: a case-insensitive match against the level
names; `none` stands for the returned error. -/
def ParseLevel (lvl : String) : Option Level :=
  let l := ToLower lvl
  if l = "panic" then some Level.PanicLevel
  else if l = "fatal" then some Level.FatalLevel
  else if l = "error" then some Level.ErrorLevel
  else if l = "warn" ∨ l = "warning" then some Level.WarnLevel
  else if l = "info" then some Level.InfoLevel
  else if l = "debug" then some Level.DebugLevel
  else if l = "trace" then some Level.TraceLevel
  else none

/-- The method `logrus.Level.String`: the name written for a level. -/
def Level.String : Level → String
  | .PanicLevel => "panic"
  | .FatalLevel => "fatal"
  | .ErrorLevel => "error"
  | .WarnLevel => "warning"
  | .InfoLevel => "info"
  | .DebugLevel => "debug"
  | .TraceLevel => "trace"

/-- The function `strconv.ParseBool`; `none` stands for the syntax error, with
which Go returns the value `false`. -/
def ParseBool (str : String) : Option Bool :=
  if str = "1" ∨ str = "t" ∨ str = "T" ∨ str = "true" ∨ str = "TRUE" ∨ str = "True" then
    some true
  else if str = "0" ∨ str = "f" ∨ str = "F" ∨ str = "false" ∨ str = "FALSE"
      ∨ str = "False" then
    some false
  else none

/-! ## Process-global state -/

/-- The process environment as `os.Getenv` sees it. -/
abbrev Env := String → String

/-- The process-global state the bring-up code reads and writes. -/
structure World where
  /-- the environment variables -/
  env : Env
  /-- the package variable `core.Debug` -/
  coreDebug : Bool
  /-- the package variable `apitypes.Debug` -/
  apitypesDebug : Bool
  /-- the level of the standard logrus logger (`log.SetLevel`) -/
  logrusLevel : Level

/-- The call `os.Getenv(key)`. -/
def Getenv (w : World) (key : String) : String := w.env key

/-- The call `os.Setenv(key, value)`. -/
def Setenv (key value : String) (w : World) : World :=
  ⟨fun k => if k = key then value else w.env k, w.coreDebug, w.apitypesDebug, w.logrusLevel⟩

/-- The interface `gofig.Config`, reduced to the one method `updateLogLevel`
calls.  A Go interface value may be nil: `Option Config`. -/
structure Config where
  /-- the method `GetString(key)` -/
  GetString : String → String

/-! ## `setLogLevels`, `enableDebugMode`, `updateLogLevel` -/

/-- The function `setLogLevels` (rexray.go 261-264). -/
def setLogLevels (lvl : Level) (w : World) : World :=
  Setenv "LIBSTORAGE_LOGGING_LEVEL" lvl.String (Setenv "REXRAY_LOGLEVEL" lvl.String w)

/-- The function `enableDebugMode` (rexray.go 252-259). -/
def enableDebugMode (w : World) : World :=
  let w1 : World := ⟨w.env, true, w.apitypesDebug, w.logrusLevel⟩
  let w2 : World := ⟨w1.env, w1.coreDebug, true, w1.logrusLevel⟩
  let w3 := Setenv "REXRAY_DEBUG" "true" w2
  let w4 := Setenv "LIBSTORAGE_DEBUG" "true" w3
  let w5 := setLogLevels Level.DebugLevel w4
  ⟨w5.env, w5.coreDebug, w5.apitypesDebug, Level.DebugLevel⟩

/-- The block that occurs four times in `updateLogLevel`:
`if ll != "" { if lvl, err := log.ParseLevel(ll); err == nil { ...; return lvl } }`.
The result `some (lvl, w')` is the `return lvl` with the world it leaves; `none`
means control falls through, the world untouched. -/
def levelBlock (ll : String) (w : World) : Option (Level × World) :=
  if ll ≠ "" then
    match ParseLevel ll with
    | some lvl =>
      if lvl = Level.DebugLevel then some (lvl, enableDebugMode w)
      else some (lvl, setLogLevels lvl w)
    | none => none
  else none

/-- The block that occurs twice in `updateLogLevel`:
`if ok, _ := strconv.ParseBool(v); ok { enableDebugMode(); return log.DebugLevel }`. -/
def debugBlock (v : String) (w : World) : Option (Level × World) :=
  if (ParseBool v).getD false then some (Level.DebugLevel, enableDebugMode w) else none

/-- The part of `updateLogLevel` guarded by `if config != nil` (rexray.go 194-215). -/
def configBlock (ConfigLogLevel : String) (config : Option Config) (w : World) :
    Option (Level × World) :=
  match config with
  | some c =>
    match levelBlock (c.GetString "rexray.loglevel") w with
    | some r => some r
    | none => levelBlock (c.GetString ConfigLogLevel) w
  | none => none

/-- The `return` statements of `updateLogLevel` that come before the final
`return log.WarnLevel`, in source order (rexray.go 194-247): `some r` when one of
them is taken, `none` when control reaches the last line. -/
def earlyReturn (ConfigLogLevel : String) (config : Option Config) (w : World) :
    Option (Level × World) :=
  match configBlock ConfigLogLevel config w with
  | some r => some r
  | none =>
  match debugBlock (Getenv w "REXRAY_DEBUG") w with
  | some r => some r
  | none =>
  match debugBlock (Getenv w "LIBSTORAGE_DEBUG") w with
  | some r => some r
  | none =>
  match levelBlock (Getenv w "REXRAY_LOGLEVEL") w with
  | some r => some r
  | none => levelBlock (Getenv w "LIBSTORAGE_LOGGING_LEVEL") w

/-- The function `updateLogLevel` (rexray.go 193-250): the returned level and the
world the call leaves.  `ConfigLogLevel` is the constant
`apitypes.ConfigLogLevel`. -/
def updateLogLevel (ConfigLogLevel : String) (config : Option Config) (w : World) :
    Level × World :=
  match earlyReturn ConfigLogLevel config w with
  | some r => r
  | none => (Level.WarnLevel, w)

/-! ## The first steps of `main` (rexray.go 38-74) -/

/-- Lines 38-41 of `main`: brand libStorage's path structure with "rexray". -/
def brandAppToken (w : World) : World :=
  if Getenv w "LIBSTORAGE_APPTOKEN" = "" then Setenv "LIBSTORAGE_APPTOKEN" "rexray" w else w

/-- Lines 43-51 of `main`: update `REXRAY_HOME` and `LIBSTORAGE_HOME` from the
other if one is set and the other is not. -/
def aliasHome (w : World) : World :=
  let rrHome := Getenv w "REXRAY_HOME"
  let lsHome := Getenv w "LIBSTORAGE_HOME"
  if rrHome ≠ "" ∧ lsHome = "" then Setenv "LIBSTORAGE_HOME" rrHome w
  else if rrHome = "" ∧ lsHome ≠ "" then Setenv "REXRAY_HOME" lsHome w
  else w

/-- The type of `util.FindFlagVal(name, args...)`, which returns a string and a
boolean.  The function is a parameter of the steps that call it. -/
abbrev FlagLookup := String → List String → String × Bool

/-- Lines 53-63 of `main`: a `-l` or `--loglevel` found among the arguments is
written to both log-level variables. -/
def logLevelFlag (FindFlagVal : FlagLookup) (args : List String) (w : World) : World :=
  if (FindFlagVal "-l" args).1 ≠ "" then
    let v := (FindFlagVal "-l" args).1
    Setenv "LIBSTORAGE_LOGGING_LEVEL" v (Setenv "REXRAY_LOGLEVEL" v w)
  else if (FindFlagVal "--loglevel" args).1 ≠ "" then
    let v := (FindFlagVal "--loglevel" args).1
    Setenv "LIBSTORAGE_LOGGING_LEVEL" v (Setenv "REXRAY_LOGLEVEL" v w)
  else w

/-- Lines 65-74 of `main`: the value of the local variable `configFile`. -/
def configFileFlag (FindFlagVal : FlagLookup) (args : List String) : String :=
  if (FindFlagVal "-c" args).1 ≠ "" then (FindFlagVal "-c" args).1
  else if (FindFlagVal "--config" args).1 ≠ "" then (FindFlagVal "--config" args).1
  else ""

/-! ## File system -/

/-- A resolved absolute path, innermost component first: the file
`/home/u/known_hosts` is `["known_hosts", "u", "home"]` and `[]` is the root
directory.  The ancestors of a path are the proper suffixes of the list. -/
abbrev Path := List String

/-- An entry of the file system. -/
inductive Node where
  | file (content : List Nat)
  | dir
  deriving DecidableEq, Repr

/-- The error numbers the modelled system calls return. -/
inductive Errno where
  | ENOENT
  | ENOTDIR
  | EEXIST
  | EISDIR
  | EACCES
  deriving DecidableEq, Repr

/-- An explicit file-system state: the entries, and for every path whether the
process is allowed to create an entry there (permissions, quotas and read-only
mounts, which no operation below changes). -/
structure FS where
  /-- the entry stored at a path other than the root -/
  node : Path → Option Node
  /-- whether an entry may be created at a path -/
  mayCreate : Path → Bool

/-- The file system with one entry written. -/
def FS.insert (fs : FS) (p : Path) (n : Node) : FS :=
  ⟨fun q => if q = p then some n else fs.node q, fs.mayCreate⟩

/-- The function `filepath.Dir` on resolved paths. -/
def Dir (p : Path) : Path := p.tail

/-- The call `os.Stat`: the path is resolved from the root, every component
but the last has to be a directory. -/
def Stat (fs : FS) : Path → Except Errno Node
  | [] => .ok .dir
  | c :: parent =>
    match Stat fs parent with
    | .error e => .error e
    | .ok (.file _) => .error .ENOTDIR
    | .ok .dir =>
      match fs.node (c :: parent) with
      | some n => .ok n
      | none => .error .ENOENT

/-- The function `gotil.FileExists`: `os.Stat` did not fail with a "does not
exist" error. -/
def FileExists (fs : FS) (p : Path) : Bool :=
  match Stat fs p with
  | .error .ENOENT => false
  | _ => true

/-- The call `os.Mkdir`. -/
def Mkdir (fs : FS) (p : Path) : Except Errno FS :=
  match p with
  | [] => .error .EEXIST
  | _ :: parent =>
    match Stat fs parent with
    | .error e => .error e
    | .ok (.file _) => .error .ENOTDIR
    | .ok .dir =>
      match fs.node p with
      | some _ => .error .EEXIST
      | none => if fs.mayCreate p then .ok (fs.insert p .dir) else .error .EACCES

/-- The call `os.MkdirAll`: the file system it leaves and its error, if any.
As in the Go source: succeed or fail at once when the path exists, otherwise
create the parent first, then the directory itself, and accept a failed
`Mkdir` when the directory is there after all. -/
def MkdirAll (fs : FS) : Path → FS × Option Errno
  | [] => (fs, none)
  | c :: parent =>
    match Stat fs (c :: parent) with
    | .ok .dir => (fs, none)
    | .ok (.file _) => (fs, some .ENOTDIR)
    | .error _ =>
      match MkdirAll fs parent with
      | (fs1, some e) => (fs1, some e)
      | (fs1, none) =>
        match Mkdir fs1 (c :: parent) with
        | .ok fs2 => (fs2, none)
        | .error e =>
          match Stat fs1 (c :: parent) with
          | .ok .dir => (fs1, none)
          | _ => (fs1, some e)

/-- The call `os.Create`: open with `O_RDWR|O_CREATE|O_TRUNC`. -/
def Create (fs : FS) (p : Path) : Except Errno FS :=
  match p with
  | [] => .error .EISDIR
  | _ :: parent =>
    match Stat fs parent with
    | .error e => .error e
    | .ok (.file _) => .error .ENOTDIR
    | .ok .dir =>
      match fs.node p with
      | some .dir => .error .EISDIR
      | some (.file _) => .ok (fs.insert p (.file []))
      | none => if fs.mayCreate p then .ok (fs.insert p (.file [])) else .error .EACCES

/-- How a call ends: it returns to its caller, or it ends in
`ctx.WithField("path", khPath).Fatal(msg)`, which logs and terminates the
process. -/
inductive Completion where
  | returned
  | fatal (msg : String) (path : Path)
  deriving DecidableEq, Repr

/-- The function `createUserKnownHostsFile` (rexray.go 266-284).  The argument
is the field `pathConfig.UserDefaultTLSKnownHosts`. -/
def createUserKnownHostsFile (UserDefaultTLSKnownHosts : Path) (fs : FS) :
    Completion × FS :=
  let khPath := UserDefaultTLSKnownHosts
  if FileExists fs khPath then (.returned, fs)
  else
    let khDirPath := Dir khPath
    let fs1 := (MkdirAll fs khDirPath).1
    match Create fs1 khPath with
    | .error _ => (.fatal "failed to create known_hosts" khPath, fs1)
    | .ok fs2 => (.returned, fs2)

/-! ## `main` (rexray.go 37-191) -/

/-- The fields of `apitypes.PathConfig` that `main` reads. -/
structure PathConfig where
  /-- the field `Etc` -/
  Etc : String
  /-- the field `Home` -/
  Home : String
  /-- the field `UserDefaultTLSKnownHosts`, resolved -/
  UserDefaultTLSKnownHosts : Path

/-- How the modelled part of `main` ends. -/
inductive Outcome where
  /-- the call `os.Exit(status)`, after `stderr` was written to standard error -/
  | exit (status : Nat) (stderr : String)
  /-- the call `ctx.Fatal(msg)` -/
  | fatal (msg : String)
  /-- the call `panic(err)` -/
  | panic
  /-- the call `cli.Execute(ctx, config)` was reached, `ctxLevel` being the level
  stored on `ctx` by `context.SetLogLevel` -/
  | execute (ctxLevel : Level) (config : Option Config)

/-- What `main` calls and this development does not define: functions of the
code base outside `rexray.go` and of the configuration library. -/
structure Externals where
  /-- the function `util.FindFlagVal` -/
  FindFlagVal : FlagLookup
  /-- the constant `apitypes.ConfigLogLevel` -/
  ConfigLogLevel : String
  /-- the function `utils.NewPathConfig`, which may create directories -/
  NewPathConfig : World → FS → PathConfig × FS
  /-- path-name resolution of a path given as a string -/
  lookup : String → Path
  /-- the function `util.ValidateConfig(path)`: `none` when it returns, the exit
  status and the text written to standard error when it terminates the
  process -/
  ValidateConfig : FS → String → Option (Nat × String)
  /-- the calls `gofigCore.New()` and `config.ReadConfigFile(path)`: the error
  text, or the configuration after the file was merged -/
  ReadConfigFile : World → FS → String → Except String Config
  /-- the method `config.Scope(scope)` -/
  Scope : Config → String → Config

/-- Lines 86-105 of `main`: the value of the local variable `config` on reaching
line 107, or the way the process ends before.  With an empty `configFile` the
variable keeps its zero value nil (the two calls that set gofig's search paths
have no effect on the state modelled here). -/
def loadConfig (x : Externals) (configFile : String) (w : World) (fs : FS) :
    Except Outcome (Option Config) :=
  if configFile = "" then .ok none
  else if ¬ FileExists fs (x.lookup configFile) then
    .error (.exit 1 ("error: invalid config file: " ++ configFile ++ "\n"))
  else
    match x.ValidateConfig fs configFile with
    | some (status, text) => .error (.exit status text)
    | none =>
      match x.ReadConfigFile w fs configFile with
      | .error err =>
        .error (.exit 1 ("error: invalid config file: " ++ configFile ++ ": " ++ err ++ "\n"))
      | .ok config => .ok (some (x.Scope config "rexray"))

/-- Lines 38-84 of `main`: the state on reaching line 86, with the values of
the local variables `configFile` and `pathConfig`. -/
def beforeConfig (x : Externals) (args : List String) (w : World) (fs : FS) :
    String × PathConfig × World × FS :=
  let w1 := brandAppToken w
  let w2 := aliasHome w1
  let w3 := logLevelFlag x.FindFlagVal args w2
  let configFile := configFileFlag x.FindFlagVal args
  let r := x.NewPathConfig w3 fs
  (configFile, r.1, w3, r.2)

/-- Lines 152-170 of `main`, once for the trace and once for the CPU profile:
`if p != "" { if f, err = os.Create(p); err != nil { panic(err) }; start }`.
The result is `none` for the panic.  Starting a profile fails only when one is
already running, which is not the case at this point of `main`. -/
def startProfile (x : Externals) (p : String) (fs : FS) : Option FS :=
  if p ≠ "" then
    match Create fs (x.lookup p) with
    | .error _ => none
    | .ok fs1 => some fs1
  else some fs

/-- Lines 107-180 of `main`: from the loaded `config` to the call of
`cli.Execute`.  Registering the signal handler, trapping signals and the
optional pprof listener do not change the state modelled here. -/
def afterConfig (x : Externals) (pathConfig : PathConfig) (config : Option Config)
    (w : World) (fs : FS) : Outcome × World × FS :=
  let r := updateLogLevel x.ConfigLogLevel config w
  match createUserKnownHostsFile pathConfig.UserDefaultTLSKnownHosts fs with
  | (.fatal msg _, fs1) => (.fatal msg, r.2, fs1)
  | (.returned, fs1) =>
    match startProfile x (Getenv r.2 "REXRAY_TRACE_PROFILE") fs1 with
    | none => (.panic, r.2, fs1)
    | some fs2 =>
      match startProfile x (Getenv r.2 "REXRAY_CPU_PROFILE") fs2 with
      | none => (.panic, r.2, fs2)
      | some fs3 => (.execute r.1 config, r.2, fs3)

/-- The function `main` up to the call of `cli.Execute` (rexray.go 37-180): how
the bring-up ends, and the world and file system it leaves. -/
def main (x : Externals) (args : List String) (w : World) (fs : FS) :
    Outcome × World × FS :=
  let s := beforeConfig x args w fs
  match loadConfig x s.1 s.2.2.1 s.2.2.2 with
  | .error out => (out, s.2.2.1, s.2.2.2)
  | .ok config => afterConfig x s.2.1 config s.2.2.1 s.2.2.2

/-! ## `registerConfig` (rexray.go 286-302) -/

/-- The arguments of one call `r.Key(keyType, short, defVal, description, keys...)`. -/
structure ConfigKey where
  /-- the key type, here always `gofig.String` -/
  keyType : String
  /-- the short flag -/
  short : String
  /-- the declared default value -/
  defVal : String
  /-- the description -/
  description : String
  /-- the key path, the first of the variadic `keys` -/
  keyName : String
  /-- the flag name, the second of the variadic `keys` -/
  flagName : String
  deriving DecidableEq, Repr

/-- A registration as `registerConfig` builds it. -/
structure Registration where
  /-- the argument of `NewRegistration` -/
  name : String
  /-- the argument of `SetYAML` -/
  yaml : String
  /-- the calls of `Key`, in order -/
  keys : List ConfigKey
  deriving DecidableEq, Repr

/-- The registration that `registerConfig` hands to `gofigCore.Register`. -/
def registerConfig : Registration :=
  ⟨"Global", "\nrexray:\n    logLevel: warn\n",
    [⟨"String", "h", "", "The libStorage host.", "rexray.host", "host"⟩,
     ⟨"String", "s", "", "The libStorage service.", "rexray.service", "service"⟩,
     ⟨"String", "l", "warn", "The log level (error, warn, info, debug)", "rexray.logLevel",
       "logLevel"⟩]⟩

/-- The default a registration declares for a key path, if it declares the key. -/
def Registration.defaultOf (r : Registration) (keyName : String) : Option String :=
  (r.keys.find? fun k => k.keyName = keyName).map ConfigKey.defVal

/-! ## `executors.go`: build constraints and imports -/

/-- A term of a `+build` line: a tag or a negated tag. -/
inductive Term where
  | tag (name : String)
  | not (name : String)
  deriving DecidableEq, Repr

/-- A `+build` line: space-separated options, each a comma-separated list of
terms. -/
abbrev BuildLine := List (List Term)

/-- The thirteen `+build` lines of `executors.go` (lines 1-13). -/
def executorsBuildLines : List BuildLine :=
  [[[.not "azureud"]], [[.not "cinder"]], [[.not "dobs"]], [[.not "ebs"]], [[.not "efs"]],
   [[.not "fittedcloud"]], [[.not "gcepd"]], [[.not "isilon"]], [[.not "rbd"]],
   [[.not "s3fs"]], [[.not "scaleio"]], [[.not "vbox"]], [[.not "vfs"]]]

/-- The import paths of `executors.go` (lines 19-31). -/
def executorsImports : List String :=
  ["github.com/codedellemc/libstorage/drivers/storage/azureud/executor",
   "github.com/codedellemc/libstorage/drivers/storage/cinder/executor",
   "github.com/codedellemc/libstorage/drivers/storage/dobs/executor",
   "github.com/codedellemc/libstorage/drivers/storage/ebs/executor",
   "github.com/codedellemc/libstorage/drivers/storage/efs/executor",
   "github.com/codedellemc/libstorage/drivers/storage/fittedcloud/executor",
   "github.com/codedellemc/libstorage/drivers/storage/gcepd/executor",
   "github.com/codedellemc/libstorage/drivers/storage/isilon/executor",
   "github.com/codedellemc/libstorage/drivers/storage/rbd/executor",
   "github.com/codedellemc/libstorage/drivers/storage/s3fs/executor",
   "github.com/codedellemc/libstorage/drivers/storage/scaleio/executor",
   "github.com/codedellemc/libstorage/drivers/storage/vbox/executor",
   "github.com/codedellemc/libstorage/drivers/storage/vfs/executor"]

/-- Whether a term holds under a set of build tags (go/build: a tag holds when
it is in the set, a negated tag when it is not). -/
def Term.holds (tags : List String) : Term → Bool
  | .tag name => decide (name ∈ tags)
  | .not name => decide (name ∉ tags)

/-- Whether a file with the given `+build` lines is part of the build (go/build:
every line has to have an option all of whose terms hold). -/
def shouldBuild (tags : List String) (lines : List BuildLine) : Bool :=
  lines.all fun line => line.any fun option => option.all (Term.holds tags)

/-- The tags a list of `+build` lines negates. -/
def negatedTags (lines : List BuildLine) : List String :=
  lines.flatMap fun line => line.flatMap fun option => option.filterMap fun
    | .not name => some name
    | .tag _ => none

/-- The segments of a slash-separated path; `cur` holds the segment being read,
reversed. -/
def splitSlash (cur : List Char) : List Char → List String
  | [] => [String.mk cur.reverse]
  | c :: cs => if c = '/' then String.mk cur.reverse :: splitSlash [] cs
               else splitSlash (c :: cur) cs

/-- The driver an executor import path names: the segment between
`drivers/storage/` and `/executor`. -/
def driverOfImport (path : String) : Option String :=
  match (splitSlash [] path.data).reverse with
  | "executor" :: name :: "storage" :: "drivers" :: _ => some name
  | _ => none

/-- The thirteen driver tags. -/
def driverTags : List String :=
  ["azureud", "cinder", "dobs", "ebs", "efs", "fittedcloud", "gcepd", "isilon", "rbd",
   "s3fs", "scaleio", "vbox", "vfs"]

/-! ## Sources that hold a level -/

/-- A source string holds the level `lvl`: it is not empty and parses to `lvl`
(the two tests of every level block of `updateLogLevel`). -/
def holdsLevel (ll : String) (lvl : Level) : Prop :=
  ll ≠ "" ∧ ParseLevel ll = some lvl

/-- A source string holds no level: it is empty or does not parse. -/
def holdsNoLevel (ll : String) : Prop :=
  ll = "" ∨ ParseLevel ll = none

/-- The configuration yields no level: it is nil, or neither `rexray.loglevel`
nor the key `apitypes.ConfigLogLevel` holds one. -/
def configSilent (ConfigLogLevel : String) : Option Config → Prop
  | none => True
  | some c =>
    holdsNoLevel (c.GetString "rexray.loglevel") ∧ holdsNoLevel (c.GetString ConfigLogLevel)

/-! ## The Configuration Resolver -/

/-- Modelled from the spec: the state of the Configuration Resolver, the
configuration library behind `gofig.Config`, which is not part of `rexray.go`.
The spec's section 4.3 names four places a key's value can come from: an
explicit override, the environment, the file merged by `ReadConfigFile`, and the
default declared at registration.  A place that has no value for a key answers
`""`. -/
structure Resolver where
  /-- the explicit overrides -/
  overrides : String → String
  /-- the values merged from the config file -/
  file : String → String
  /-- the declared defaults -/
  defaults : String → String

/-- Upper case of an ASCII letter, every other rune unchanged. -/
def toUpperRune (c : Char) : Char :=
  if 'a' ≤ c ∧ c ≤ 'z' then Char.ofNat (c.toNat - 32) else c

/-- Modelled from the spec: the "deterministic name transform" from a key path to
the name of its environment variable, taken to be the one under which the keys
`rexray.loglevel` and `libstorage.logging.level` name the variables
`REXRAY_LOGLEVEL` and `LIBSTORAGE_LOGGING_LEVEL` that `rexray.go` writes for
them: upper case, every dot an underscore. -/
def envVarName (key : String) : String :=
  String.mk (key.data.map fun c => if c = '.' then '_' else toUpperRune c)

/-- Modelled from the spec: key resolution of the Configuration Resolver, "fixed
regardless of registration order: explicit override, then environment variable
(deterministic name transform), then file value, then declared default". -/
def Resolver.resolve (r : Resolver) (env : Env) (key : String) : String :=
  if r.overrides key ≠ "" then r.overrides key
  else if env (envVarName key) ≠ "" then env (envVarName key)
  else if r.file key ≠ "" then r.file key
  else r.defaults key

/-- Modelled from the spec: the configuration view a resolver gives in an
environment; `GetString` resolves the key. -/
def Resolver.config (r : Resolver) (env : Env) : Config :=
  ⟨r.resolve env⟩

/-- The default a registration declares for a key path, `""` when it declares
none.  Key paths are compared without regard to case: `rexray.go` registers
`rexray.logLevel` and looks up `rexray.loglevel`. -/
def declaredDefault (reg : Registration) (key : String) : String :=
  ((reg.keys.find? fun k => ToLower k.keyName = ToLower key).map ConfigKey.defVal).getD ""

/-- Modelled from the spec: "`New()` builds a configuration seeded with
defaults", here the defaults `registerConfig` declares. -/
def Resolver.New : Resolver :=
  ⟨fun _ => "", fun _ => "", declaredDefault registerConfig⟩

/-- Modelled from the spec: "`ReadConfigFile(path)` merges file values", for a
file that was read without error and holds the given values. -/
def Resolver.ReadConfigFile (r : Resolver) (values : List (String × String)) : Resolver :=
  ⟨r.overrides,
    fun k =>
      match values.find? fun kv => kv.1 = k with
      | some kv => kv.2
      | none => r.file k,
    r.defaults⟩

/-! ## Proof-side view of `updateLogLevel` -/

/-- The world a `return lvl` of `updateLogLevel` leaves behind: every such
return is preceded by `enableDebugMode()` when the level is debug and by
`setLogLevels(lvl)` otherwise. -/
def written (lvl : Level) (w : World) : World :=
  if lvl = Level.DebugLevel then enableDebugMode w else setLogLevels lvl w

/-- The level a source string holds: `none` when it is empty or does not parse. -/
def levelOf (ll : String) : Option Level :=
  if ll = "" then none else ParseLevel ll

/-- The level the configuration holds, first key first. -/
def configLevel (ConfigLogLevel : String) (config : Option Config) : Option Level :=
  match config with
  | some c =>
    match levelOf (c.GetString "rexray.loglevel") with
    | some l => some l
    | none => levelOf (c.GetString ConfigLogLevel)
  | none => none

/-- The level the sources hold, in the order `updateLogLevel` consults them. -/
def chosen (ConfigLogLevel : String) (config : Option Config) (env : Env) : Option Level :=
  match configLevel ConfigLogLevel config with
  | some l => some l
  | none =>
    if (ParseBool (env "REXRAY_DEBUG")).getD false then some Level.DebugLevel
    else if (ParseBool (env "LIBSTORAGE_DEBUG")).getD false then some Level.DebugLevel
    else
      match levelOf (env "REXRAY_LOGLEVEL") with
      | some l => some l
      | none => levelOf (env "LIBSTORAGE_LOGGING_LEVEL")

/-! ## Sample states -/

/-- An environment given by a list of bindings; every other variable is unset. -/
def envOf (kvs : List (String × String)) : Env :=
  fun k => ((kvs.find? fun kv => kv.1 = k).map Prod.snd).getD ""

/-- The world of a freshly started process with the given environment: both
debug flags are false and the standard logger is at its default level, info. -/
def World.start (kvs : List (String × String)) : World :=
  ⟨envOf kvs, false, false, Level.InfoLevel⟩

/-- A configuration given by a list of answers; every other key answers `""`. -/
def Config.ofList (kvs : List (String × String)) : Config :=
  ⟨fun k => ((kvs.find? fun kv => kv.1 = k).map Prod.snd).getD ""⟩

/-- A file system given by a list of entries, in which everything may be created. -/
def FS.ofList (entries : List (Path × Node)) : FS :=
  ⟨fun p => (entries.find? fun e => e.1 = p).map Prod.snd, fun _ => true⟩

/-- A file system given by a list of entries, in which nothing may be created. -/
def FS.readOnly (entries : List (Path × Node)) : FS :=
  ⟨fun p => (entries.find? fun e => e.1 = p).map Prod.snd, fun _ => false⟩

/-- Path-name resolution for sample runs: the non-empty segments of an absolute
path, innermost first. -/
def sampleResolve (s : String) : Path :=
  ((splitSlash [] s.data).filter fun seg => seg ≠ "").reverse

/-- A flag lookup for sample runs: the argument that follows the first
occurrence of the flag. -/
def sampleLookup : FlagLookup := fun name args =>
  match args.dropWhile (fun a => a ≠ name) with
  | _ :: v :: _ => (v, true)
  | _ => ("", false)

/-- Externals for sample runs: the path configuration of the user `u`, a
validator that always returns, and a configuration library that rejects the
file `/etc/rexray/bad.yml` and answers `"info"` for `rexray.loglevel` from every
other file. -/
def sampleExternals : Externals :=
  ⟨sampleLookup, "libstorage.logging.level",
    fun _ fs => (⟨"/etc/rexray", "/home/u/.rexray",
      ["known_hosts", "tls", ".rexray", "u", "home"]⟩, fs),
    sampleResolve,
    fun _ _ => none,
    fun _ _ path =>
      if path = "/etc/rexray/bad.yml" then .error "yaml: line 1: did not find expected key"
      else .ok (Config.ofList [("rexray.loglevel", "info")]),
    fun c _ => c⟩

/-! ## Basic facts about the state -/

theorem World.ext_fields {w v : World} (he : ∀ k, w.env k = v.env k)
    (hc : w.coreDebug = v.coreDebug) (ha : w.apitypesDebug = v.apitypesDebug)
    (hl : w.logrusLevel = v.logrusLevel) : w = v := by
  cases w; cases v
  simp only [World.mk.injEq]
  exact ⟨funext he, hc, ha, hl⟩

@[simp] theorem Getenv_Setenv (key value k : String) (w : World) :
    Getenv (Setenv key value w) k = if k = key then value else Getenv w k := rfl

@[simp] theorem Setenv_env (key value k : String) (w : World) :
    (Setenv key value w).env k = if k = key then value else w.env k := rfl

@[simp] theorem Setenv_coreDebug (key value : String) (w : World) :
    (Setenv key value w).coreDebug = w.coreDebug := rfl

@[simp] theorem Setenv_apitypesDebug (key value : String) (w : World) :
    (Setenv key value w).apitypesDebug = w.apitypesDebug := rfl

@[simp] theorem Setenv_logrusLevel (key value : String) (w : World) :
    (Setenv key value w).logrusLevel = w.logrusLevel := rfl

theorem Getenv_eq_env (w : World) (k : String) : Getenv w k = w.env k := rfl

/-- Parsing the name `Level.String` writes for a level gives the level back. -/
theorem ParseLevel_String (l : Level) : ParseLevel l.String = some l := by
  cases l <;> decide

/-- No level has the empty name. -/
theorem Level.String_ne_empty (l : Level) : l.String ≠ "" := by
  cases l <;> decide

/-! ## The proof-side view agrees with the code -/

theorem levelBlock_eq (ll : String) (w : World) :
    levelBlock ll w = (levelOf ll).map fun lvl => (lvl, written lvl w) := by
  unfold levelBlock levelOf written
  by_cases h : ll = ""
  · simp [h]
  · simp only [ne_eq, h, not_false_eq_true, if_true, if_false]
    cases ParseLevel ll with
    | none => rfl
    | some lvl => by_cases hd : lvl = Level.DebugLevel <;> simp [hd]

theorem debugBlock_eq (v : String) (w : World) :
    debugBlock v w =
      if (ParseBool v).getD false then some (Level.DebugLevel, written Level.DebugLevel w)
      else none := by
  simp [debugBlock, written]

theorem configBlock_eq (cll : String) (config : Option Config) (w : World) :
    configBlock cll config w = (configLevel cll config).map fun lvl => (lvl, written lvl w) := by
  unfold configBlock configLevel
  cases config with
  | none => rfl
  | some c =>
    simp only [levelBlock_eq]
    cases levelOf (c.GetString "rexray.loglevel") <;> simp

theorem earlyReturn_eq (cll : String) (config : Option Config) (w : World) :
    earlyReturn cll config w = (chosen cll config w.env).map fun lvl => (lvl, written lvl w) := by
  unfold earlyReturn chosen
  simp only [configBlock_eq, debugBlock_eq, levelBlock_eq, Getenv_eq_env]
  cases configLevel cll config with
  | some l => simp
  | none =>
    simp only [Option.map_none']
    by_cases h1 : (ParseBool (w.env "REXRAY_DEBUG")).getD false = true
    · simp [h1]
    · by_cases h2 : (ParseBool (w.env "LIBSTORAGE_DEBUG")).getD false = true
      · simp [h1, h2]
      · simp only [h1, h2, if_false]
        cases levelOf (w.env "REXRAY_LOGLEVEL") <;> simp

theorem updateLogLevel_eq (cll : String) (config : Option Config) (w : World) :
    updateLogLevel cll config w =
      match chosen cll config w.env with
      | some lvl => (lvl, written lvl w)
      | none => (Level.WarnLevel, w) := by
  unfold updateLogLevel
  rw [earlyReturn_eq]
  cases chosen cll config w.env <;> rfl

theorem written_env (lvl : Level) (w : World) (k : String) :
    (written lvl w).env k =
      if k = "LIBSTORAGE_LOGGING_LEVEL" ∨ k = "REXRAY_LOGLEVEL" then lvl.String
      else if lvl = Level.DebugLevel ∧ (k = "LIBSTORAGE_DEBUG" ∨ k = "REXRAY_DEBUG") then "true"
      else w.env k := by
  unfold written
  by_cases hd : lvl = Level.DebugLevel
  · subst hd
    simp only [if_true, enableDebugMode, setLogLevels, Setenv_env, true_and]
    by_cases h1 : k = "LIBSTORAGE_LOGGING_LEVEL"
    · simp [h1]
    by_cases h2 : k = "REXRAY_LOGLEVEL"
    · simp [h2]
    by_cases h3 : k = "LIBSTORAGE_DEBUG"
    · simp [h3]
    by_cases h4 : k = "REXRAY_DEBUG"
    · simp [h4]
    simp [h1, h2, h3, h4]
  · simp only [hd, if_false, setLogLevels, Setenv_env, false_and]
    by_cases h1 : k = "LIBSTORAGE_LOGGING_LEVEL"
    · simp [h1]
    by_cases h2 : k = "REXRAY_LOGLEVEL"
    · simp [h2]
    simp [h1, h2]

theorem written_coreDebug (lvl : Level) (w : World) :
    (written lvl w).coreDebug = if lvl = Level.DebugLevel then true else w.coreDebug := by
  unfold written
  by_cases hd : lvl = Level.DebugLevel <;> simp [hd, enableDebugMode, setLogLevels]

theorem written_apitypesDebug (lvl : Level) (w : World) :
    (written lvl w).apitypesDebug =
      if lvl = Level.DebugLevel then true else w.apitypesDebug := by
  unfold written
  by_cases hd : lvl = Level.DebugLevel <;> simp [hd, enableDebugMode, setLogLevels]

theorem written_logrusLevel (lvl : Level) (w : World) :
    (written lvl w).logrusLevel =
      if lvl = Level.DebugLevel then Level.DebugLevel else w.logrusLevel := by
  unfold written
  by_cases hd : lvl = Level.DebugLevel <;> simp [hd, enableDebugMode, setLogLevels]

theorem written_written (lvl : Level) (w : World) :
    written lvl (written lvl w) = written lvl w := by
  apply World.ext_fields
  · intro k
    simp only [written_env]
    split_ifs <;> rfl
  · simp only [written_coreDebug]; split_ifs <;> rfl
  · simp only [written_apitypesDebug]; split_ifs <;> rfl
  · simp only [written_logrusLevel]; split_ifs <;> rfl

theorem levelOf_String (l : Level) : levelOf l.String = some l := by
  simp [levelOf, Level.String_ne_empty, ParseLevel_String]

theorem levelOf_eq_none_iff (ll : String) :
    levelOf ll = none ↔ (ll = "" ∨ ParseLevel ll = none) := by
  unfold levelOf
  by_cases h : ll = "" <;> simp [h]

theorem levelOf_eq_some_iff (ll : String) (l : Level) :
    levelOf ll = some l ↔ (ll ≠ "" ∧ ParseLevel ll = some l) := by
  unfold levelOf
  by_cases h : ll = "" <;> simp [h]

theorem chosen_written (cll : String) (config : Option Config) (w : World) (lvl : Level)
    (h : chosen cll config w.env = some lvl) :
    chosen cll config (written lvl w).env = some lvl := by
  unfold chosen at h ⊢
  cases hc : configLevel cll config with
  | some l => rw [hc] at h; simpa using h
  | none =>
    rw [hc] at h
    simp only at h ⊢
    by_cases hd : lvl = Level.DebugLevel
    · subst hd
      have : (written Level.DebugLevel w).env "REXRAY_DEBUG" = "true" := by
        rw [written_env]; simp
      rw [this]
      simp [ParseBool]
    · have e1 : (written lvl w).env "REXRAY_DEBUG" = w.env "REXRAY_DEBUG" := by
        rw [written_env]; simp [hd]
      have e2 : (written lvl w).env "LIBSTORAGE_DEBUG" = w.env "LIBSTORAGE_DEBUG" := by
        rw [written_env]; simp [hd]
      have e3 : (written lvl w).env "REXRAY_LOGLEVEL" = lvl.String := by
        rw [written_env]; simp
      rw [e1, e2, e3, levelOf_String]
      by_cases h1 : (ParseBool (w.env "REXRAY_DEBUG")).getD false = true
      · rw [if_pos h1] at h
        exact absurd (Option.some.inj h).symm hd
      · rw [if_neg h1] at h ⊢
        by_cases h2 : (ParseBool (w.env "LIBSTORAGE_DEBUG")).getD false = true
        · rw [if_pos h2] at h
          exact absurd (Option.some.inj h).symm hd
        · rw [if_neg h2]

theorem ParseBool_getD_eq_true_iff (v : String) :
    (ParseBool v).getD false = true ↔ ParseBool v = some true := by
  cases h : ParseBool v with
  | none => simp
  | some b => cases b <;> simp

/-- Control reaches the final `return log.WarnLevel` exactly when no source
holds a level: the configuration is nil or neither of its two keys holds one,
neither debug variable parses as true, and neither log-level variable holds
one. -/
theorem earlyReturn_eq_none_iff (cll : String) (config : Option Config) (w : World) :
    earlyReturn cll config w = none ↔
      ((∀ c, config = some c →
          (c.GetString "rexray.loglevel" = "" ∨
            ParseLevel (c.GetString "rexray.loglevel") = none) ∧
          (c.GetString cll = "" ∨ ParseLevel (c.GetString cll) = none)) ∧
        ParseBool (Getenv w "REXRAY_DEBUG") ≠ some true ∧
        ParseBool (Getenv w "LIBSTORAGE_DEBUG") ≠ some true ∧
        (Getenv w "REXRAY_LOGLEVEL" = "" ∨ ParseLevel (Getenv w "REXRAY_LOGLEVEL") = none) ∧
        (Getenv w "LIBSTORAGE_LOGGING_LEVEL" = "" ∨
          ParseLevel (Getenv w "LIBSTORAGE_LOGGING_LEVEL") = none)) := by
  rw [earlyReturn_eq, Option.map_eq_none']
  simp only [Getenv_eq_env, ← levelOf_eq_none_iff]
  unfold chosen configLevel
  generalize ParseBool (w.env "REXRAY_DEBUG") = b1
  generalize ParseBool (w.env "LIBSTORAGE_DEBUG") = b2
  generalize levelOf (w.env "REXRAY_LOGLEVEL") = o1
  generalize levelOf (w.env "LIBSTORAGE_LOGGING_LEVEL") = o2
  cases config with
  | none =>
    rcases b1 with _ | _ | _ <;> rcases b2 with _ | _ | _ <;> cases o1 <;> cases o2 <;> simp
  | some c =>
    simp only [Option.some.injEq, forall_eq']
    generalize levelOf (c.GetString "rexray.loglevel") = c1
    generalize levelOf (c.GetString cll) = c2
    cases c1 <;> cases c2 <;> rcases b1 with _ | _ | _ <;> rcases b2 with _ | _ | _ <;>
      cases o1 <;> cases o2 <;> simp

theorem configLevel_eq_none_iff (cll : String) (config : Option Config) :
    configLevel cll config = none ↔
      ∀ c, config = some c →
        (c.GetString "rexray.loglevel" = "" ∨
          ParseLevel (c.GetString "rexray.loglevel") = none) ∧
        (c.GetString cll = "" ∨ ParseLevel (c.GetString cll) = none) := by
  simp only [← levelOf_eq_none_iff]
  unfold configLevel
  cases config with
  | none => simp
  | some c =>
    simp only [Option.some.injEq, forall_eq']
    generalize levelOf (c.GetString "rexray.loglevel") = c1
    generalize levelOf (c.GetString cll) = c2
    cases c1 <;> cases c2 <;> simp

theorem ParseBool_getD_eq_false (v : String) (h : ParseBool v ≠ some true) :
    (ParseBool v).getD false = false := by
  rcases hv : ParseBool v with _ | _ | _
  · rfl
  · rfl
  · exact absurd hv h

theorem holdsLevel_iff (ll : String) (lvl : Level) :
    holdsLevel ll lvl ↔ levelOf ll = some lvl :=
  (levelOf_eq_some_iff ll lvl).symm

theorem holdsNoLevel_iff (ll : String) : holdsNoLevel ll ↔ levelOf ll = none :=
  (levelOf_eq_none_iff ll).symm

theorem configSilent_iff (cll : String) (config : Option Config) :
    configSilent cll config ↔ configLevel cll config = none := by
  cases config with
  | none => simp [configSilent, configLevel]
  | some c =>
    simp only [configSilent, configLevel, holdsNoLevel_iff]
    generalize levelOf (c.GetString "rexray.loglevel") = c1
    generalize levelOf (c.GetString cll) = c2
    cases c1 <;> cases c2 <;> simp

/-- The sources of `updateLogLevel` in the order the code consults them, each
deciding the result when the ones before it hold nothing. -/
theorem updateLogLevel_decision_list (cll : String) (config : Option Config) (w : World) :
    (∀ c lvl, config = some c → holdsLevel (c.GetString "rexray.loglevel") lvl →
      updateLogLevel cll config w =
        (lvl, if lvl = Level.DebugLevel then enableDebugMode w else setLogLevels lvl w)) ∧
    (∀ c lvl, config = some c → holdsNoLevel (c.GetString "rexray.loglevel") →
      holdsLevel (c.GetString cll) lvl →
      updateLogLevel cll config w =
        (lvl, if lvl = Level.DebugLevel then enableDebugMode w else setLogLevels lvl w)) ∧
    (configSilent cll config → ParseBool (Getenv w "REXRAY_DEBUG") = some true →
      updateLogLevel cll config w = (Level.DebugLevel, enableDebugMode w)) ∧
    (configSilent cll config → ParseBool (Getenv w "REXRAY_DEBUG") ≠ some true →
      ParseBool (Getenv w "LIBSTORAGE_DEBUG") = some true →
      updateLogLevel cll config w = (Level.DebugLevel, enableDebugMode w)) ∧
    (configSilent cll config → ParseBool (Getenv w "REXRAY_DEBUG") ≠ some true →
      ParseBool (Getenv w "LIBSTORAGE_DEBUG") ≠ some true →
      ∀ lvl, holdsLevel (Getenv w "REXRAY_LOGLEVEL") lvl →
      updateLogLevel cll config w =
        (lvl, if lvl = Level.DebugLevel then enableDebugMode w else setLogLevels lvl w)) ∧
    (configSilent cll config → ParseBool (Getenv w "REXRAY_DEBUG") ≠ some true →
      ParseBool (Getenv w "LIBSTORAGE_DEBUG") ≠ some true →
      holdsNoLevel (Getenv w "REXRAY_LOGLEVEL") →
      ∀ lvl, holdsLevel (Getenv w "LIBSTORAGE_LOGGING_LEVEL") lvl →
      updateLogLevel cll config w =
        (lvl, if lvl = Level.DebugLevel then enableDebugMode w else setLogLevels lvl w)) ∧
    (configSilent cll config → ParseBool (Getenv w "REXRAY_DEBUG") ≠ some true →
      ParseBool (Getenv w "LIBSTORAGE_DEBUG") ≠ some true →
      holdsNoLevel (Getenv w "REXRAY_LOGLEVEL") →
      holdsNoLevel (Getenv w "LIBSTORAGE_LOGGING_LEVEL") →
      updateLogLevel cll config w = (Level.WarnLevel, w)) := by
  have key : ∀ lvl, chosen cll config w.env = some lvl →
      updateLogLevel cll config w =
        (lvl, if lvl = Level.DebugLevel then enableDebugMode w else setLogLevels lvl w) := by
    intro lvl h
    rw [updateLogLevel_eq, h]
    rfl
  have keyd : chosen cll config w.env = some Level.DebugLevel →
      updateLogLevel cll config w = (Level.DebugLevel, enableDebugMode w) := by
    intro h
    rw [key _ h]
    rfl
  simp only [holdsLevel_iff, holdsNoLevel_iff, configSilent_iff, Getenv_eq_env]
  refine ⟨?_, ?_, ?_, ?_, ?_, ?_, ?_⟩
  · rintro c lvl rfl h1
    exact key lvl (by simp [chosen, configLevel, h1])
  · rintro c lvl rfl h1 h2
    exact key lvl (by simp [chosen, configLevel, h1, h2])
  · intro h0 h1
    exact keyd (by simp [chosen, h0, h1])
  · intro h0 h1 h2
    have h1' := ParseBool_getD_eq_false _ h1
    exact keyd (by simp [chosen, h0, h1', h2])
  · intro h0 h1 h2 lvl h3
    have h1' := ParseBool_getD_eq_false _ h1
    have h2' := ParseBool_getD_eq_false _ h2
    exact key lvl (by simp [chosen, h0, h1', h2', h3])
  · intro h0 h1 h2 h3 lvl h4
    have h1' := ParseBool_getD_eq_false _ h1
    have h2' := ParseBool_getD_eq_false _ h2
    exact key lvl (by simp [chosen, h0, h1', h2', h3, h4])
  · intro h0 h1 h2 h3 h4
    have h1' := ParseBool_getD_eq_false _ h1
    have h2' := ParseBool_getD_eq_false _ h2
    rw [updateLogLevel_eq]
    simp [chosen, h0, h1', h2', h3, h4]

/-- The fallback of `updateLogLevel`, and that an unparseable source gives the
same result as an empty one. -/
theorem updateLogLevel_unparseable_as_empty (cll : String) (config : Option Config)
    (w : World) :
    (∃ lvl w', updateLogLevel cll config w = (lvl, w')) ∧
    (((∀ c, config = some c →
          (c.GetString "rexray.loglevel" = "" ∨
            ParseLevel (c.GetString "rexray.loglevel") = none) ∧
          (c.GetString cll = "" ∨ ParseLevel (c.GetString cll) = none)) ∧
        ParseBool (Getenv w "REXRAY_DEBUG") ≠ some true ∧
        ParseBool (Getenv w "LIBSTORAGE_DEBUG") ≠ some true ∧
        (Getenv w "REXRAY_LOGLEVEL" = "" ∨ ParseLevel (Getenv w "REXRAY_LOGLEVEL") = none) ∧
        (Getenv w "LIBSTORAGE_LOGGING_LEVEL" = "" ∨
          ParseLevel (Getenv w "LIBSTORAGE_LOGGING_LEVEL") = none)) →
      updateLogLevel cll config w = (Level.WarnLevel, w)) ∧
    (registerConfig.defaultOf "rexray.logLevel" = some "warn" ∧
      ParseLevel "warn" = some Level.WarnLevel) ∧
    (∀ c, config = some c → ParseLevel (c.GetString "rexray.loglevel") = none →
      updateLogLevel cll config w =
        updateLogLevel cll
          (some ⟨fun k => if k = "rexray.loglevel" then "" else c.GetString k⟩) w) ∧
    (∀ c, config = some c → ParseLevel (c.GetString cll) = none →
      updateLogLevel cll config w =
        updateLogLevel cll (some ⟨fun k => if k = cll then "" else c.GetString k⟩) w) ∧
    (ParseLevel (Getenv w "REXRAY_LOGLEVEL") = none →
      (updateLogLevel cll config w).1 =
        (updateLogLevel cll config (Setenv "REXRAY_LOGLEVEL" "" w)).1) ∧
    (ParseLevel (Getenv w "LIBSTORAGE_LOGGING_LEVEL") = none →
      (updateLogLevel cll config w).1 =
        (updateLogLevel cll config (Setenv "LIBSTORAGE_LOGGING_LEVEL" "" w)).1) := by
  have hnone : ∀ s, ParseLevel s = none → levelOf s = none := fun s h =>
    (levelOf_eq_none_iff s).2 (Or.inr h)
  have hempty : levelOf "" = none := by simp [levelOf]
  refine ⟨⟨_, _, rfl⟩, ?_, ⟨by decide, by decide⟩, ?_, ?_, ?_, ?_⟩
  · intro h
    have h' := (earlyReturn_eq_none_iff cll config w).2 h
    simp [updateLogLevel, h']
  · rintro c rfl hp
    simp only [updateLogLevel_eq, chosen, configLevel, if_true, hnone _ hp, hempty]
    by_cases hk : cll = "rexray.loglevel"
    · simp [hk, hnone _ hp, hempty]
    · simp [hk]
  · rintro c rfl hp
    simp only [updateLogLevel_eq, chosen, configLevel, if_true, hnone _ hp, hempty]
    by_cases hk : "rexray.loglevel" = cll
    · subst hk
      simp [hnone _ hp, hempty]
    · simp [hk]
  · intro hp
    have e : chosen cll config (Setenv "REXRAY_LOGLEVEL" "" w).env =
        chosen cll config w.env := by
      have hp' := hnone _ hp
      simp only [Getenv_eq_env] at hp'
      simp [chosen, hp', hempty]
    rw [updateLogLevel_eq, updateLogLevel_eq, e]
    cases chosen cll config w.env <;> rfl
  · intro hp
    have e : chosen cll config (Setenv "LIBSTORAGE_LOGGING_LEVEL" "" w).env =
        chosen cll config w.env := by
      have hp' := hnone _ hp
      simp only [Getenv_eq_env] at hp'
      simp [chosen, hp', hempty]
    rw [updateLogLevel_eq, updateLogLevel_eq, e]
    cases chosen cll config w.env <;> rfl

/-! ## Log-level resolution -/

/-- C8. `updateLogLevel` always returns a level.  When the configuration is nil or
neither of its two keys holds a parseable level, neither `REXRAY_DEBUG` nor
`LIBSTORAGE_DEBUG` parses as true and neither `REXRAY_LOGLEVEL` nor
`LIBSTORAGE_LOGGING_LEVEL` holds a parseable level, it returns warn and leaves
the world as it was; warn is the level of the default `"warn"` that
`registerConfig` declares for `rexray.logLevel`.  An unparseable string in a
source gives the same result as an empty one, and the next source then decides:
the sources are `rexray.loglevel`, the libStorage key, `REXRAY_DEBUG`,
`LIBSTORAGE_DEBUG`, `REXRAY_LOGLEVEL`, `LIBSTORAGE_LOGGING_LEVEL`, in this order,
and the first one that holds a level (or parses as true) fixes the returned
level and the world that is left, whatever the sources after it hold. -/
theorem updateLogLevel_total_default_warn (cll : String) (config : Option Config)
    (w : World) :
    (∃ lvl w', updateLogLevel cll config w = (lvl, w')) ∧
    (((∀ c, config = some c →
          (c.GetString "rexray.loglevel" = "" ∨
            ParseLevel (c.GetString "rexray.loglevel") = none) ∧
          (c.GetString cll = "" ∨ ParseLevel (c.GetString cll) = none)) ∧
        ParseBool (Getenv w "REXRAY_DEBUG") ≠ some true ∧
        ParseBool (Getenv w "LIBSTORAGE_DEBUG") ≠ some true ∧
        (Getenv w "REXRAY_LOGLEVEL" = "" ∨ ParseLevel (Getenv w "REXRAY_LOGLEVEL") = none) ∧
        (Getenv w "LIBSTORAGE_LOGGING_LEVEL" = "" ∨
          ParseLevel (Getenv w "LIBSTORAGE_LOGGING_LEVEL") = none)) →
      updateLogLevel cll config w = (Level.WarnLevel, w)) ∧
    (registerConfig.defaultOf "rexray.logLevel" = some "warn" ∧
      ParseLevel "warn" = some Level.WarnLevel) ∧
    (∀ c, config = some c → ParseLevel (c.GetString "rexray.loglevel") = none →
      updateLogLevel cll config w =
        updateLogLevel cll
          (some ⟨fun k => if k = "rexray.loglevel" then "" else c.GetString k⟩) w) ∧
    (∀ c, config = some c → ParseLevel (c.GetString cll) = none →
      updateLogLevel cll config w =
        updateLogLevel cll (some ⟨fun k => if k = cll then "" else c.GetString k⟩) w) ∧
    (ParseLevel (Getenv w "REXRAY_LOGLEVEL") = none →
      (updateLogLevel cll config w).1 =
        (updateLogLevel cll config (Setenv "REXRAY_LOGLEVEL" "" w)).1) ∧
    (ParseLevel (Getenv w "LIBSTORAGE_LOGGING_LEVEL") = none →
      (updateLogLevel cll config w).1 =
        (updateLogLevel cll config (Setenv "LIBSTORAGE_LOGGING_LEVEL" "" w)).1) ∧
    (∀ c lvl, config = some c → holdsLevel (c.GetString "rexray.loglevel") lvl →
      updateLogLevel cll config w =
        (lvl, if lvl = Level.DebugLevel then enableDebugMode w else setLogLevels lvl w)) ∧
    (∀ c lvl, config = some c → holdsNoLevel (c.GetString "rexray.loglevel") →
      holdsLevel (c.GetString cll) lvl →
      updateLogLevel cll config w =
        (lvl, if lvl = Level.DebugLevel then enableDebugMode w else setLogLevels lvl w)) ∧
    (configSilent cll config → ParseBool (Getenv w "REXRAY_DEBUG") = some true →
      updateLogLevel cll config w = (Level.DebugLevel, enableDebugMode w)) ∧
    (configSilent cll config → ParseBool (Getenv w "REXRAY_DEBUG") ≠ some true →
      ParseBool (Getenv w "LIBSTORAGE_DEBUG") = some true →
      updateLogLevel cll config w = (Level.DebugLevel, enableDebugMode w)) ∧
    (configSilent cll config → ParseBool (Getenv w "REXRAY_DEBUG") ≠ some true →
      ParseBool (Getenv w "LIBSTORAGE_DEBUG") ≠ some true →
      ∀ lvl, holdsLevel (Getenv w "REXRAY_LOGLEVEL") lvl →
      updateLogLevel cll config w =
        (lvl, if lvl = Level.DebugLevel then enableDebugMode w else setLogLevels lvl w)) ∧
    (configSilent cll config → ParseBool (Getenv w "REXRAY_DEBUG") ≠ some true →
      ParseBool (Getenv w "LIBSTORAGE_DEBUG") ≠ some true →
      holdsNoLevel (Getenv w "REXRAY_LOGLEVEL") →
      ∀ lvl, holdsLevel (Getenv w "LIBSTORAGE_LOGGING_LEVEL") lvl →
      updateLogLevel cll config w =
        (lvl, if lvl = Level.DebugLevel then enableDebugMode w else setLogLevels lvl w)) := by
  obtain ⟨a1, a2, a3, a4, a5, a6, a7⟩ := updateLogLevel_unparseable_as_empty cll config w
  obtain ⟨d1, d2, d3, d4, d5, d6, _⟩ := updateLogLevel_decision_list cll config w
  exact ⟨a1, a2, a3, a4, a5, a6, a7, d1, d2, d3, d4, d5, d6⟩

/-- Witness for C8: a configuration answering the unparseable `"loud"` and an
environment holding the unparseable `"bogus"` give warn and leave the world
unchanged; with the unparseable `"bogus"` in `REXRAY_LOGLEVEL` and `"fatal"` in
`LIBSTORAGE_LOGGING_LEVEL` the level returned is fatal; with the unparseable
`"loud"` for `rexray.loglevel` and `"error"` for the libStorage key the level
returned is error, although `REXRAY_LOGLEVEL` holds `"info"`. -/
theorem updateLogLevel_total_default_warn_witness :
    updateLogLevel "libstorage.logging.level"
        (some (Config.ofList [("rexray.loglevel", "loud")]))
        (World.start [("REXRAY_LOGLEVEL", "bogus"), ("REXRAY_DEBUG", "no")]) =
      (Level.WarnLevel, World.start [("REXRAY_LOGLEVEL", "bogus"), ("REXRAY_DEBUG", "no")]) ∧
    updateLogLevel "libstorage.logging.level" none
        (World.start [("REXRAY_LOGLEVEL", "bogus"), ("LIBSTORAGE_LOGGING_LEVEL", "fatal")]) =
      (Level.FatalLevel, setLogLevels Level.FatalLevel
        (World.start [("REXRAY_LOGLEVEL", "bogus"), ("LIBSTORAGE_LOGGING_LEVEL", "fatal")])) ∧
    updateLogLevel "libstorage.logging.level"
        (some (Config.ofList
          [("rexray.loglevel", "loud"), ("libstorage.logging.level", "error")]))
        (World.start [("REXRAY_LOGLEVEL", "info")]) =
      (Level.ErrorLevel, setLogLevels Level.ErrorLevel
        (World.start [("REXRAY_LOGLEVEL", "info")])) :=
  ⟨(updateLogLevel_total_default_warn "libstorage.logging.level"
      (some (Config.ofList [("rexray.loglevel", "loud")]))
      (World.start [("REXRAY_LOGLEVEL", "bogus"), ("REXRAY_DEBUG", "no")])).2.1
    ⟨fun c hc => by cases hc; exact ⟨Or.inr (by decide), Or.inl (by decide)⟩,
      by decide, by decide, Or.inr (by decide), Or.inl (by decide)⟩,
   (updateLogLevel_total_default_warn "libstorage.logging.level" none
      (World.start [("REXRAY_LOGLEVEL", "bogus"), ("LIBSTORAGE_LOGGING_LEVEL", "fatal")])
      ).2.2.2.2.2.2.2.2.2.2.2.2
    trivial (by decide) (by decide) (Or.inr (by decide)) Level.FatalLevel
    ⟨by decide, by decide⟩,
   (updateLogLevel_total_default_warn "libstorage.logging.level"
      (some (Config.ofList
        [("rexray.loglevel", "loud"), ("libstorage.logging.level", "error")]))
      (World.start [("REXRAY_LOGLEVEL", "info")])).2.2.2.2.2.2.2.2.1
    _ Level.ErrorLevel rfl (Or.inr (by decide)) ⟨by decide, by decide⟩⟩

/-- C9. Whenever `updateLogLevel` returns a level through one of the returns that
come before the final `return log.WarnLevel`, afterwards `REXRAY_LOGLEVEL` and
`LIBSTORAGE_LOGGING_LEVEL` both hold the name of the returned level, and when
that level is debug, `REXRAY_DEBUG` and `LIBSTORAGE_DEBUG` both hold `"true"` and
both global debug flags are true. -/
theorem updateLogLevel_namespaces_in_step (cll : String) (config : Option Config)
    (w : World) (lvl : Level) (w' : World)
    (h : earlyReturn cll config w = some (lvl, w')) :
    updateLogLevel cll config w = (lvl, w') ∧
    Getenv w' "REXRAY_LOGLEVEL" = lvl.String ∧
    Getenv w' "LIBSTORAGE_LOGGING_LEVEL" = lvl.String ∧
    Getenv w' "REXRAY_LOGLEVEL" = Getenv w' "LIBSTORAGE_LOGGING_LEVEL" ∧
    (lvl = Level.DebugLevel →
      Getenv w' "REXRAY_DEBUG" = "true" ∧ Getenv w' "LIBSTORAGE_DEBUG" = "true" ∧
      w'.coreDebug = true ∧ w'.apitypesDebug = true) := by
  have hu : updateLogLevel cll config w = (lvl, w') := by simp [updateLogLevel, h]
  rw [earlyReturn_eq] at h
  cases hc : chosen cll config w.env with
  | none => simp [hc] at h
  | some l =>
    rw [hc] at h
    simp only [Option.map_some', Option.some.injEq, Prod.mk.injEq] at h
    obtain ⟨rfl, rfl⟩ := h
    refine ⟨hu, ?_, ?_, ?_, ?_⟩
    · simp [Getenv_eq_env, written_env]
    · simp [Getenv_eq_env, written_env]
    · simp [Getenv_eq_env, written_env]
    · rintro rfl
      simp [Getenv_eq_env, written_env, written_coreDebug, written_apitypesDebug]

/-- Witness for C9: `LIBSTORAGE_DEBUG=1` makes `updateLogLevel` return debug, and
all four variables and both flags are in step afterwards. -/
theorem updateLogLevel_namespaces_in_step_witness :
    Getenv (enableDebugMode (World.start [("LIBSTORAGE_DEBUG", "1")])) "REXRAY_LOGLEVEL" =
        "debug" ∧
      Getenv (enableDebugMode (World.start [("LIBSTORAGE_DEBUG", "1")]))
        "LIBSTORAGE_LOGGING_LEVEL" = "debug" :=
  have h := updateLogLevel_namespaces_in_step "libstorage.logging.level" none
    (World.start [("LIBSTORAGE_DEBUG", "1")]) Level.DebugLevel
    (enableDebugMode (World.start [("LIBSTORAGE_DEBUG", "1")])) (by rfl)
  ⟨h.2.1, h.2.2.1⟩

/-- C10. Calling `updateLogLevel` a second time, with the same configuration
answers, on the world the first call left returns the same level and leaves
that world as it is. -/
theorem updateLogLevel_idempotent (cll : String) (config : Option Config) (w : World) :
    updateLogLevel cll config (updateLogLevel cll config w).2 =
      updateLogLevel cll config w := by
  rw [updateLogLevel_eq cll config w]
  cases hc : chosen cll config w.env with
  | none =>
    simp only
    rw [updateLogLevel_eq, hc]
  | some l =>
    simp only
    rw [updateLogLevel_eq, chosen_written cll config w l hc]
    simp only [written_written]

/-- C5, counterexample. With `REXRAY_DEBUG=1` and a nil configuration,
`updateLogLevel` returns debug and changes the process-global state: both debug
flags go from false to true, the global logger level goes from info to debug,
and `REXRAY_LOGLEVEL` goes from unset to `"debug"`. -/
theorem updateLogLevel_changes_global_state :
    (updateLogLevel "libstorage.logging.level" none
        (World.start [("REXRAY_DEBUG", "1")])).1 = Level.DebugLevel ∧
    (World.start [("REXRAY_DEBUG", "1")]).coreDebug = false ∧
    (updateLogLevel "libstorage.logging.level" none
        (World.start [("REXRAY_DEBUG", "1")])).2.coreDebug = true ∧
    (World.start [("REXRAY_DEBUG", "1")]).apitypesDebug = false ∧
    (updateLogLevel "libstorage.logging.level" none
        (World.start [("REXRAY_DEBUG", "1")])).2.apitypesDebug = true ∧
    (World.start [("REXRAY_DEBUG", "1")]).logrusLevel = Level.InfoLevel ∧
    (updateLogLevel "libstorage.logging.level" none
        (World.start [("REXRAY_DEBUG", "1")])).2.logrusLevel = Level.DebugLevel ∧
    Getenv (World.start [("REXRAY_DEBUG", "1")]) "REXRAY_LOGLEVEL" = "" ∧
    Getenv (updateLogLevel "libstorage.logging.level" none
        (World.start [("REXRAY_DEBUG", "1")])).2 "REXRAY_LOGLEVEL" = "debug" ∧
    (updateLogLevel "libstorage.logging.level" none
        (World.start [("REXRAY_DEBUG", "1")])).2 ≠ World.start [("REXRAY_DEBUG", "1")] := by
  refine ⟨by decide, by decide, by decide, by decide, by decide, by decide, by decide,
    by decide, by decide, ?_⟩
  intro h
  have h' := congrArg World.coreDebug h
  revert h'
  decide

/-- C5, amended. `updateLogLevel` hands the level back as its result, which `main`
stores on the context before `cli.Execute`, and it also writes process-global
state.  What it leaves alone: every environment variable other than
`REXRAY_LOGLEVEL`, `LIBSTORAGE_LOGGING_LEVEL`, `REXRAY_DEBUG` and
`LIBSTORAGE_DEBUG`, always; both debug flags, the global logger level and the two
debug variables, unless the returned level is debug; and the whole world when
control reaches the final `return log.WarnLevel`. -/
theorem updateLogLevel_global_frame (cll : String) (config : Option Config) (w : World) :
    (∀ k, k ≠ "REXRAY_LOGLEVEL" → k ≠ "LIBSTORAGE_LOGGING_LEVEL" → k ≠ "REXRAY_DEBUG" →
      k ≠ "LIBSTORAGE_DEBUG" →
      Getenv (updateLogLevel cll config w).2 k = Getenv w k) ∧
    ((updateLogLevel cll config w).1 ≠ Level.DebugLevel →
      (updateLogLevel cll config w).2.coreDebug = w.coreDebug ∧
      (updateLogLevel cll config w).2.apitypesDebug = w.apitypesDebug ∧
      (updateLogLevel cll config w).2.logrusLevel = w.logrusLevel ∧
      Getenv (updateLogLevel cll config w).2 "REXRAY_DEBUG" = Getenv w "REXRAY_DEBUG" ∧
      Getenv (updateLogLevel cll config w).2 "LIBSTORAGE_DEBUG" =
        Getenv w "LIBSTORAGE_DEBUG") ∧
    (earlyReturn cll config w = none →
      updateLogLevel cll config w = (Level.WarnLevel, w)) ∧
    (∀ (x : Externals) (pathConfig : PathConfig) (fs : FS) (lvl : Level) (c : Option Config),
      (afterConfig x pathConfig config w fs).1 = Outcome.execute lvl c →
      lvl = (updateLogLevel x.ConfigLogLevel config w).1) := by
  refine ⟨?_, ?_, ?_, ?_⟩
  · intro k h1 h2 h3 h4
    rw [updateLogLevel_eq]
    cases chosen cll config w.env with
    | none => rfl
    | some l => simp [Getenv_eq_env, written_env, h1, h2, h3, h4]
  · rw [updateLogLevel_eq]
    cases chosen cll config w.env with
    | none => intro _; exact ⟨rfl, rfl, rfl, rfl, rfl⟩
    | some l =>
      intro hd
      simp only at hd
      simp [Getenv_eq_env, written_env, written_coreDebug, written_apitypesDebug,
        written_logrusLevel, hd]
  · intro h
    simp [updateLogLevel, h]
  · intro x pathConfig fs lvl c h
    unfold afterConfig at h
    simp only at h
    split at h
    · simp at h
    · split at h
      · simp at h
      · split at h
        · simp at h
        · simp only [Outcome.execute.injEq] at h
          exact h.1.symm

/-- Witness for C5, amended: with `REXRAY_LOGLEVEL=INFO` the returned level is
info, hence not debug, and both debug flags, the logger level and an unrelated
variable are as before. -/
theorem updateLogLevel_global_frame_witness :
    (updateLogLevel "libstorage.logging.level" none
        (World.start [("REXRAY_LOGLEVEL", "INFO"), ("HOME", "/root")])).2.coreDebug = false ∧
    Getenv (updateLogLevel "libstorage.logging.level" none
        (World.start [("REXRAY_LOGLEVEL", "INFO"), ("HOME", "/root")])).2 "HOME" = "/root" :=
  have h := updateLogLevel_global_frame "libstorage.logging.level" none
    (World.start [("REXRAY_LOGLEVEL", "INFO"), ("HOME", "/root")])
  ⟨(h.2.1 (by decide)).1,
    h.1 "HOME" (by decide) (by decide) (by decide) (by decide)⟩

/-- C2, counterexample. The configuration answers the valid level `"info"` for
`rexray.loglevel`, the environment holds the different valid level `"error"` in
`LIBSTORAGE_LOGGING_LEVEL` (and leaves `REXRAY_LOGLEVEL` unset, so that the
answer `"info"` is the file value also for a configuration that consults
`REXRAY_LOGLEVEL` itself): `updateLogLevel` returns info, the level of the
configuration, not error, the level of the environment.  The same holds when the
configuration also answers the environment value for the libStorage key, and
when the configuration is the resolver's view of a file holding `"info"`. -/
theorem updateLogLevel_config_before_environment :
    ParseLevel "info" = some Level.InfoLevel ∧
    ParseLevel "error" = some Level.ErrorLevel ∧
    (updateLogLevel "libstorage.logging.level"
        (some (Config.ofList [("rexray.loglevel", "info")]))
        (World.start [("LIBSTORAGE_LOGGING_LEVEL", "error")])).1 = Level.InfoLevel ∧
    (updateLogLevel "libstorage.logging.level"
        (some (Config.ofList
          [("rexray.loglevel", "info"), ("libstorage.logging.level", "error")]))
        (World.start [("LIBSTORAGE_LOGGING_LEVEL", "error")])).1 = Level.InfoLevel ∧
    (updateLogLevel "libstorage.logging.level"
        (some (Config.ofList [("rexray.loglevel", "info")]))
        (World.start [("LIBSTORAGE_LOGGING_LEVEL", "error")])).1 ≠ Level.ErrorLevel ∧
    (updateLogLevel "libstorage.logging.level"
        (some ((Resolver.New.ReadConfigFile [("rexray.loglevel", "info")]).config
          (World.start [("LIBSTORAGE_LOGGING_LEVEL", "error")]).env))
        (World.start [("LIBSTORAGE_LOGGING_LEVEL", "error")])).1 = Level.InfoLevel := by
  decide

/-- C2, amended. Log-level resolution follows the fixed precedence environment,
file, default for `REXRAY_LOGLEVEL`.  For every configuration whose answer for
`rexray.loglevel` is the resolver's (no explicit override, the default the one
`registerConfig` declares) and every environment: when `REXRAY_LOGLEVEL` holds a
valid level, `updateLogLevel` returns it, whatever the file holds; with the
environment value removed it returns the valid level of the file; with both
removed it returns the declared default, warn.  `LIBSTORAGE_LOGGING_LEVEL` has no
such precedence: the code consults it last, after `rexray.loglevel` and the
libStorage key of the configuration, `REXRAY_DEBUG`, `LIBSTORAGE_DEBUG` and
`REXRAY_LOGLEVEL`, in this order, so with `REXRAY_LOGLEVEL` removed a valid level
of the file is returned whatever `LIBSTORAGE_LOGGING_LEVEL` holds. -/
theorem updateLogLevel_precedence (cll : String) (r : Resolver) (c : Config) (w : World)
    (hview : c.GetString "rexray.loglevel" = r.resolve w.env "rexray.loglevel")
    (hov : r.overrides "rexray.loglevel" = "")
    (hdef : r.defaults "rexray.loglevel" = declaredDefault registerConfig "rexray.loglevel") :
    (∀ le, holdsLevel (Getenv w "REXRAY_LOGLEVEL") le →
      (updateLogLevel cll (some c) w).1 = le) ∧
    (Getenv w "REXRAY_LOGLEVEL" = "" →
      ∀ lf, holdsLevel (r.file "rexray.loglevel") lf →
      (updateLogLevel cll (some c) w).1 = lf) ∧
    (Getenv w "REXRAY_LOGLEVEL" = "" → r.file "rexray.loglevel" = "" →
      (updateLogLevel cll (some c) w).1 = Level.WarnLevel) ∧
    (declaredDefault registerConfig "rexray.loglevel" = "warn" ∧
      ParseLevel "warn" = some Level.WarnLevel) ∧
    (∀ config : Option Config,
      (∀ c lvl, config = some c → holdsLevel (c.GetString "rexray.loglevel") lvl →
        updateLogLevel cll config w =
          (lvl, if lvl = Level.DebugLevel then enableDebugMode w else setLogLevels lvl w)) ∧
      (∀ c lvl, config = some c → holdsNoLevel (c.GetString "rexray.loglevel") →
        holdsLevel (c.GetString cll) lvl →
        updateLogLevel cll config w =
          (lvl, if lvl = Level.DebugLevel then enableDebugMode w else setLogLevels lvl w)) ∧
      (configSilent cll config → ParseBool (Getenv w "REXRAY_DEBUG") = some true →
        updateLogLevel cll config w = (Level.DebugLevel, enableDebugMode w)) ∧
      (configSilent cll config → ParseBool (Getenv w "REXRAY_DEBUG") ≠ some true →
        ParseBool (Getenv w "LIBSTORAGE_DEBUG") = some true →
        updateLogLevel cll config w = (Level.DebugLevel, enableDebugMode w)) ∧
      (configSilent cll config → ParseBool (Getenv w "REXRAY_DEBUG") ≠ some true →
        ParseBool (Getenv w "LIBSTORAGE_DEBUG") ≠ some true →
        ∀ lvl, holdsLevel (Getenv w "REXRAY_LOGLEVEL") lvl →
        updateLogLevel cll config w =
          (lvl, if lvl = Level.DebugLevel then enableDebugMode w else setLogLevels lvl w)) ∧
      (configSilent cll config → ParseBool (Getenv w "REXRAY_DEBUG") ≠ some true →
        ParseBool (Getenv w "LIBSTORAGE_DEBUG") ≠ some true →
        holdsNoLevel (Getenv w "REXRAY_LOGLEVEL") →
        ∀ lvl, holdsLevel (Getenv w "LIBSTORAGE_LOGGING_LEVEL") lvl →
        updateLogLevel cll config w =
          (lvl, if lvl = Level.DebugLevel then enableDebugMode w else setLogLevels lvl w)) ∧
      (configSilent cll config → ParseBool (Getenv w "REXRAY_DEBUG") ≠ some true →
        ParseBool (Getenv w "LIBSTORAGE_DEBUG") ≠ some true →
        holdsNoLevel (Getenv w "REXRAY_LOGLEVEL") →
        holdsNoLevel (Getenv w "LIBSTORAGE_LOGGING_LEVEL") →
        updateLogLevel cll config w = (Level.WarnLevel, w))) := by
  have hname : envVarName "rexray.loglevel" = "REXRAY_LOGLEVEL" := by decide
  have hwarn : declaredDefault registerConfig "rexray.loglevel" = "warn" := by decide
  have first := fun lvl h =>
    congrArg Prod.fst ((updateLogLevel_decision_list cll (some c) w).1 c lvl rfl h)
  refine ⟨?_, ?_, ?_, ⟨hwarn, by decide⟩, fun config => updateLogLevel_decision_list cll config w⟩
  · intro le h
    apply first
    have : c.GetString "rexray.loglevel" = Getenv w "REXRAY_LOGLEVEL" := by
      have h1 : w.env "REXRAY_LOGLEVEL" ≠ "" := h.1
      rw [hview, Resolver.resolve, hname]
      simp [hov, h1, Getenv_eq_env]
    rw [this]
    exact h
  · intro he lf h
    apply first
    have : c.GetString "rexray.loglevel" = r.file "rexray.loglevel" := by
      have h1 : w.env "REXRAY_LOGLEVEL" = "" := he
      rw [hview, Resolver.resolve, hname]
      simp [hov, h1, h.1]
    rw [this]
    exact h
  · intro he hf
    apply first
    have : c.GetString "rexray.loglevel" = "warn" := by
      have h1 : w.env "REXRAY_LOGLEVEL" = "" := he
      rw [hview, Resolver.resolve, hname]
      simp [hov, h1, hf, hdef, hwarn]
    rw [this]
    exact ⟨by decide, by decide⟩

/-- Witness for C2, amended: the file merged into a new configuration holds
`"info"` for `rexray.loglevel` and `REXRAY_LOGLEVEL` holds `"error"`; the level
returned is error.  With `REXRAY_LOGLEVEL` unset and `"error"` in
`LIBSTORAGE_LOGGING_LEVEL` the level returned is info. -/
theorem updateLogLevel_precedence_witness :
    (updateLogLevel "libstorage.logging.level"
        (some ((Resolver.New.ReadConfigFile [("rexray.loglevel", "info")]).config
          (World.start [("REXRAY_LOGLEVEL", "error")]).env))
        (World.start [("REXRAY_LOGLEVEL", "error")])).1 = Level.ErrorLevel ∧
    (updateLogLevel "libstorage.logging.level"
        (some ((Resolver.New.ReadConfigFile [("rexray.loglevel", "info")]).config
          (World.start [("LIBSTORAGE_LOGGING_LEVEL", "error")]).env))
        (World.start [("LIBSTORAGE_LOGGING_LEVEL", "error")])).1 = Level.InfoLevel :=
  ⟨(updateLogLevel_precedence "libstorage.logging.level"
      (Resolver.New.ReadConfigFile [("rexray.loglevel", "info")])
      ((Resolver.New.ReadConfigFile [("rexray.loglevel", "info")]).config
        (World.start [("REXRAY_LOGLEVEL", "error")]).env)
      (World.start [("REXRAY_LOGLEVEL", "error")]) rfl rfl rfl).1
    Level.ErrorLevel ⟨by decide, by decide⟩,
   (updateLogLevel_precedence "libstorage.logging.level"
      (Resolver.New.ReadConfigFile [("rexray.loglevel", "info")])
      ((Resolver.New.ReadConfigFile [("rexray.loglevel", "info")]).config
        (World.start [("LIBSTORAGE_LOGGING_LEVEL", "error")]).env)
      (World.start [("LIBSTORAGE_LOGGING_LEVEL", "error")]) rfl rfl rfl).2.1
    (by decide) Level.InfoLevel ⟨by decide, by decide⟩⟩

/-! ## The first steps of `main` -/

/-- C1. Home-directory aliasing: after lines 43-51 of `main`, if exactly one of
`REXRAY_HOME` and `LIBSTORAGE_HOME` was non-empty then both hold that value; if
both were non-empty or both empty the world is unchanged, so two different
non-empty values stay different; no other variable is touched. -/
theorem aliasHome_each_from_other (w : World) :
    (Getenv w "REXRAY_HOME" ≠ "" → Getenv w "LIBSTORAGE_HOME" = "" →
      Getenv (aliasHome w) "REXRAY_HOME" = Getenv w "REXRAY_HOME" ∧
      Getenv (aliasHome w) "LIBSTORAGE_HOME" = Getenv w "REXRAY_HOME") ∧
    (Getenv w "REXRAY_HOME" = "" → Getenv w "LIBSTORAGE_HOME" ≠ "" →
      Getenv (aliasHome w) "REXRAY_HOME" = Getenv w "LIBSTORAGE_HOME" ∧
      Getenv (aliasHome w) "LIBSTORAGE_HOME" = Getenv w "LIBSTORAGE_HOME") ∧
    (Getenv w "REXRAY_HOME" ≠ "" → Getenv w "LIBSTORAGE_HOME" ≠ "" → aliasHome w = w) ∧
    (Getenv w "REXRAY_HOME" = "" → Getenv w "LIBSTORAGE_HOME" = "" → aliasHome w = w) ∧
    (Getenv w "REXRAY_HOME" ≠ "" → Getenv w "LIBSTORAGE_HOME" ≠ "" →
      Getenv w "REXRAY_HOME" ≠ Getenv w "LIBSTORAGE_HOME" →
      Getenv (aliasHome w) "REXRAY_HOME" ≠ Getenv (aliasHome w) "LIBSTORAGE_HOME") ∧
    (∀ k, k ≠ "REXRAY_HOME" → k ≠ "LIBSTORAGE_HOME" →
      Getenv (aliasHome w) k = Getenv w k) := by
  refine ⟨?_, ?_, ?_, ?_, ?_, ?_⟩
  · intro h1 h2
    simp [aliasHome, h1, h2]
  · intro h1 h2
    simp [aliasHome, h1, h2]
  · intro h1 h2
    simp [aliasHome, h1, h2]
  · intro h1 h2
    simp [aliasHome, h1, h2]
  · intro h1 h2 h3
    simpa [aliasHome, h1, h2] using h3
  · intro k h1 h2
    unfold aliasHome
    simp only
    split_ifs <;> simp [h1, h2]

/-- Witness for C1: with only `REXRAY_HOME` set, `LIBSTORAGE_HOME` takes its
value. -/
theorem aliasHome_each_from_other_witness :
    Getenv (aliasHome (World.start [("REXRAY_HOME", "/opt/rexray")])) "REXRAY_HOME" =
        "/opt/rexray" ∧
      Getenv (aliasHome (World.start [("REXRAY_HOME", "/opt/rexray")])) "LIBSTORAGE_HOME" =
        "/opt/rexray" :=
  (aliasHome_each_from_other (World.start [("REXRAY_HOME", "/opt/rexray")])).1
    (by decide) (by decide)

/-- C7. A command-line log level overrides the environment: if the lookup of
`-l` yields a non-empty value, both `REXRAY_LOGLEVEL` and
`LIBSTORAGE_LOGGING_LEVEL` hold it afterwards, whatever they held before and
whatever `--loglevel` yields; otherwise, if the lookup of `--loglevel` yields a
non-empty value, both hold that; if neither yields a value the world is
unchanged; no other variable is touched.  Likewise `configFile` is the value of
`-c` when that is non-empty, else the value of `--config`. -/
theorem logLevelFlag_overrides_environment (FindFlagVal : FlagLookup) (args : List String)
    (w : World) :
    ((FindFlagVal "-l" args).1 ≠ "" →
      Getenv (logLevelFlag FindFlagVal args w) "REXRAY_LOGLEVEL" =
        (FindFlagVal "-l" args).1 ∧
      Getenv (logLevelFlag FindFlagVal args w) "LIBSTORAGE_LOGGING_LEVEL" =
        (FindFlagVal "-l" args).1) ∧
    ((FindFlagVal "-l" args).1 = "" → (FindFlagVal "--loglevel" args).1 ≠ "" →
      Getenv (logLevelFlag FindFlagVal args w) "REXRAY_LOGLEVEL" =
        (FindFlagVal "--loglevel" args).1 ∧
      Getenv (logLevelFlag FindFlagVal args w) "LIBSTORAGE_LOGGING_LEVEL" =
        (FindFlagVal "--loglevel" args).1) ∧
    ((FindFlagVal "-l" args).1 = "" → (FindFlagVal "--loglevel" args).1 = "" →
      logLevelFlag FindFlagVal args w = w) ∧
    (∀ k, k ≠ "REXRAY_LOGLEVEL" → k ≠ "LIBSTORAGE_LOGGING_LEVEL" →
      Getenv (logLevelFlag FindFlagVal args w) k = Getenv w k) ∧
    ((FindFlagVal "-c" args).1 ≠ "" →
      configFileFlag FindFlagVal args = (FindFlagVal "-c" args).1) ∧
    ((FindFlagVal "-c" args).1 = "" →
      configFileFlag FindFlagVal args = (FindFlagVal "--config" args).1) := by
  refine ⟨?_, ?_, ?_, ?_, ?_, ?_⟩
  · intro h1
    simp [logLevelFlag, h1]
  · intro h1 h2
    simp [logLevelFlag, h1, h2]
  · intro h1 h2
    simp [logLevelFlag, h1, h2]
  · intro k h1 h2
    unfold logLevelFlag
    simp only
    split_ifs <;> simp [h1, h2]
  · intro h1
    simp [configFileFlag, h1]
  · intro h1
    unfold configFileFlag
    simp only [h1, ne_eq, not_true_eq_false, if_false]
    by_cases h2 : (FindFlagVal "--config" args).1 = "" <;> simp [h2]

/-- Witness for C7: with both `-l debug` and `--loglevel info` on the command
line and `REXRAY_LOGLEVEL=error` in the environment, both variables end up
holding `"debug"`. -/
theorem logLevelFlag_overrides_environment_witness :
    Getenv (logLevelFlag sampleLookup ["rexray", "--loglevel", "info", "-l", "debug"]
        (World.start [("REXRAY_LOGLEVEL", "error")])) "REXRAY_LOGLEVEL" = "debug" ∧
      Getenv (logLevelFlag sampleLookup ["rexray", "--loglevel", "info", "-l", "debug"]
        (World.start [("REXRAY_LOGLEVEL", "error")])) "LIBSTORAGE_LOGGING_LEVEL" = "debug" :=
  (logLevelFlag_overrides_environment sampleLookup
      ["rexray", "--loglevel", "info", "-l", "debug"]
      (World.start [("REXRAY_LOGLEVEL", "error")])).1 (by decide)

/-! ## Executor linking -/

/-- C6. For every set of build tags, `executors.go` is part of the build exactly
when none of the thirteen driver tags is in the set; the drivers whose executors
it imports are, one for one and in the same order, the thirteen tags its `+build`
lines negate; so a build that selects any driver tag does not link the
all-executors file. -/
theorem executors_linked_iff_no_driver_tag (tags : List String) :
    (shouldBuild tags executorsBuildLines = true ↔ ∀ t ∈ driverTags, t ∉ tags) ∧
    executorsImports.map driverOfImport = driverTags.map some ∧
    negatedTags executorsBuildLines = driverTags ∧
    driverTags.length = 13 ∧ driverTags.Nodup ∧
    (∀ t ∈ driverTags, t ∈ tags → shouldBuild tags executorsBuildLines = false) ∧
    (∀ t ∈ driverTags, shouldBuild [t] executorsBuildLines = false) := by
  have hiff : shouldBuild tags executorsBuildLines = true ↔ ∀ t ∈ driverTags, t ∉ tags := by
    simp [shouldBuild, executorsBuildLines, driverTags, Term.holds]
  refine ⟨hiff, by decide, by decide, by decide, by decide, ?_, ?_⟩
  · intro t ht htags
    cases hb : shouldBuild tags executorsBuildLines with
    | false => rfl
    | true => exact absurd htags (hiff.1 hb t ht)
  · decide

/-- Witness for C6: a build with the tags `linux` and `scaleio` leaves the file
out, a build with the tag `linux` alone links it. -/
theorem executors_linked_iff_no_driver_tag_witness :
    shouldBuild ["linux", "scaleio"] executorsBuildLines = false ∧
      shouldBuild ["linux"] executorsBuildLines = true :=
  ⟨(executors_linked_iff_no_driver_tag ["linux", "scaleio"]).2.2.2.2.2.1 "scaleio"
      (by decide) (by decide),
    (executors_linked_iff_no_driver_tag ["linux"]).1.2 (by decide)⟩

/-! ## File-system facts -/

@[simp] theorem FS.insert_node (fs : FS) (p q : Path) (n : Node) :
    (fs.insert p n).node q = if q = p then some n else fs.node q := rfl

@[simp] theorem FS.insert_mayCreate (fs : FS) (p : Path) (n : Node) :
    (fs.insert p n).mayCreate = fs.mayCreate := rfl

/-- The result of `os.Stat` depends only on the entries at the path and its
ancestors. -/
theorem Stat_congr (fs fs' : FS) (p : Path)
    (h : ∀ q, q <:+ p → fs.node q = fs'.node q) : Stat fs p = Stat fs' p := by
  induction p with
  | nil => rfl
  | cons c parent ih =>
    have ih' := ih fun q hq => h q (hq.trans (List.suffix_cons c parent))
    have hn := h (c :: parent) (List.suffix_refl _)
    simp only [Stat, ih', hn]

theorem not_cons_suffix_self (c : String) (p : Path) : ¬ (c :: p) <:+ p := by
  intro h
  have := h.length_le
  simp at this

/-- A successful `os.Mkdir` wrote one directory entry, where there was none. -/
theorem Mkdir_ok {fs fs2 : FS} {p : Path} (h : Mkdir fs p = .ok fs2) :
    fs2 = fs.insert p .dir ∧ fs.node p = none := by
  unfold Mkdir at h
  split at h
  · simp at h
  · split at h
    · simp at h
    · simp at h
    · split at h
      · simp at h
      · rename_i hnode
        split_ifs at h
        simp only [Except.ok.injEq] at h
        exact ⟨h.symm, hnode⟩

/-- A successful `os.Create` wrote an empty file below an existing directory. -/
theorem Create_ok {fs fs2 : FS} {p : Path} (h : Create fs p = .ok fs2) :
    fs2 = fs.insert p (.file []) ∧ Stat fs (Dir p) = .ok .dir ∧ p ≠ [] := by
  unfold Create at h
  split at h
  · simp at h
  · rename_i c parent
    split at h
    · simp at h
    · simp at h
    · rename_i hstat
      split at h
      · simp at h
      · simp only [Except.ok.injEq] at h
        exact ⟨h.symm, hstat, by simp⟩
      · split_ifs at h
        simp only [Except.ok.injEq] at h
        exact ⟨h.symm, hstat, by simp⟩

/-- What `os.MkdirAll` changes: an entry is either as before, or it is a new
directory at the path or one of its ancestors, where there was no entry. -/
theorem MkdirAll_node (fs : FS) (p : Path) (q : Path) :
    (MkdirAll fs p).1.node q = fs.node q ∨
      (q <:+ p ∧ fs.node q = none ∧ (MkdirAll fs p).1.node q = some .dir) := by
  induction p with
  | nil => exact Or.inl rfl
  | cons c parent ih =>
    have lift : ((MkdirAll fs parent).1.node q = fs.node q ∨
        (q <:+ c :: parent ∧ fs.node q = none ∧
          (MkdirAll fs parent).1.node q = some .dir)) := by
      rcases ih with h | ⟨h1, h2, h3⟩
      · exact Or.inl h
      · exact Or.inr ⟨h1.trans (List.suffix_cons c parent), h2, h3⟩
    unfold MkdirAll
    split
    · exact Or.inl rfl
    · exact Or.inl rfl
    · split
      · rename_i heq
        have : (MkdirAll fs parent).1 = _ := congrArg Prod.fst heq
        simp only at this
        rw [this] at lift
        exact lift
      · rename_i fs1 heq
        have e1 : (MkdirAll fs parent).1 = fs1 := congrArg Prod.fst heq
        rw [e1] at lift ih
        split
        · rename_i fs2 hmk
          obtain ⟨rfl, hnone⟩ := Mkdir_ok hmk
          simp only [FS.insert_node]
          by_cases hq : q = c :: parent
          · subst hq
            simp only [if_true]
            rcases ih with h | ⟨h1, _, _⟩
            · exact Or.inr ⟨List.suffix_refl _, by rw [← h]; exact hnone, trivial⟩
            · exact absurd h1 (not_cons_suffix_self c parent)
          · simp only [hq, if_false]
            exact lift
        · split <;> exact lift

/-- The call `os.MkdirAll` changes no permission. -/
theorem MkdirAll_mayCreate (fs : FS) (p : Path) :
    (MkdirAll fs p).1.mayCreate = fs.mayCreate := by
  induction p with
  | nil => rfl
  | cons c parent ih =>
    unfold MkdirAll
    split
    · rfl
    · rfl
    · split
      · rename_i heq
        have : (MkdirAll fs parent).1 = _ := congrArg Prod.fst heq
        simp only at this
        rw [this] at ih
        exact ih
      · rename_i fs1 heq
        have e1 : (MkdirAll fs parent).1 = fs1 := congrArg Prod.fst heq
        rw [e1] at ih
        split
        · rename_i fs2 hmk
          obtain ⟨rfl, _⟩ := Mkdir_ok hmk
          exact ih
        · split <;> exact ih

/-- A path that `gotil.FileExists` reports missing is not the root. -/
theorem FileExists_false_ne_nil {fs : FS} {p : Path} (h : FileExists fs p = false) :
    p ≠ [] := by
  rintro rfl
  simp [FileExists, Stat] at h

/-! ## `createUserKnownHostsFile` -/

/-- C4, counterexample. In a file system that holds `/home` and `/home/u` only,
creating `/home/u/.rexray/tls/known_hosts` succeeds and also creates the
directory `/home/u/.rexray`, a path that is neither the known-hosts path nor its
parent directory `/home/u/.rexray/tls` and that did not exist before. -/
theorem createUserKnownHostsFile_creates_ancestors :
    FileExists (FS.ofList [(["home"], Node.dir), (["u", "home"], Node.dir)])
        ["known_hosts", "tls", ".rexray", "u", "home"] = false ∧
    (createUserKnownHostsFile ["known_hosts", "tls", ".rexray", "u", "home"]
        (FS.ofList [(["home"], Node.dir), (["u", "home"], Node.dir)])).1 =
      Completion.returned ∧
    Dir ["known_hosts", "tls", ".rexray", "u", "home"] = ["tls", ".rexray", "u", "home"] ∧
    (FS.ofList [(["home"], Node.dir), (["u", "home"], Node.dir)]).node
        [".rexray", "u", "home"] = none ∧
    (createUserKnownHostsFile ["known_hosts", "tls", ".rexray", "u", "home"]
        (FS.ofList [(["home"], Node.dir), (["u", "home"], Node.dir)])).2.node
        [".rexray", "u", "home"] = some Node.dir := by
  decide

/-- C4, amended. `createUserKnownHostsFile` is "create if missing": when the
known-hosts path exists the file system is left unchanged; when it is missing
and `os.Create` succeeds, the call returns, the path is an empty file, its
parent directory exists, no permission changed, every path that is neither the
known-hosts path nor one of its ancestor directories is unchanged, no entry
that existed at another path is modified, and the only other entries written
are new directories; when `os.Create` fails the call ends in the fatal
branch. -/
theorem createUserKnownHostsFile_create_if_missing (khPath : Path) (fs : FS) :
    (FileExists fs khPath = true →
      createUserKnownHostsFile khPath fs = (Completion.returned, fs)) ∧
    (FileExists fs khPath = false →
      ∀ fs2, Create (MkdirAll fs (Dir khPath)).1 khPath = .ok fs2 →
        createUserKnownHostsFile khPath fs = (Completion.returned, fs2) ∧
        Stat fs2 khPath = .ok (.file []) ∧
        Stat fs2 (Dir khPath) = .ok .dir ∧
        fs2.mayCreate = fs.mayCreate ∧
        (∀ q, q ≠ khPath → ¬ q <:+ Dir khPath → fs2.node q = fs.node q) ∧
        (∀ q, q ≠ khPath → fs.node q ≠ none → fs2.node q = fs.node q) ∧
        (∀ q, q ≠ khPath → fs2.node q ≠ fs.node q → fs2.node q = some .dir)) ∧
    (FileExists fs khPath = false →
      ∀ e, Create (MkdirAll fs (Dir khPath)).1 khPath = .error e →
        (createUserKnownHostsFile khPath fs).1 =
          Completion.fatal "failed to create known_hosts" khPath) := by
  refine ⟨?_, ?_, ?_⟩
  · intro h
    simp [createUserKnownHostsFile, h]
  · intro h fs2 hc
    obtain ⟨rfl, hdir, hne⟩ := Create_ok hc
    have hframe : ∀ q, q ≠ khPath →
        ((MkdirAll fs (Dir khPath)).1.insert khPath (.file [])).node q =
          (MkdirAll fs (Dir khPath)).1.node q := by
      intro q hq
      simp [hq]
    refine ⟨?_, ?_, ?_, ?_, ?_, ?_, ?_⟩
    · simp [createUserKnownHostsFile, h, hc]
    · obtain ⟨c, parent, rfl⟩ := List.exists_cons_of_ne_nil hne
      have hp : Stat ((MkdirAll fs parent).1.insert (c :: parent) (.file [])) parent =
          .ok .dir := by
        rw [← hdir]
        apply Stat_congr
        intro q hq
        have : q ≠ c :: parent := by
          rintro rfl
          exact not_cons_suffix_self c parent hq
        simp [this, Dir]
      simp only [Dir, List.tail_cons] at hp ⊢
      simp [Stat, hp]
    · rw [← hdir]
      apply Stat_congr
      intro q hq
      have : q ≠ khPath := by
        rintro rfl
        obtain ⟨c, parent, rfl⟩ := List.exists_cons_of_ne_nil hne
        exact not_cons_suffix_self c parent hq
      simp [this]
    · simp [MkdirAll_mayCreate]
    · intro q hq hsuf
      rw [hframe q hq]
      rcases MkdirAll_node fs (Dir khPath) q with h1 | ⟨h1, _, _⟩
      · exact h1
      · exact absurd h1 hsuf
    · intro q hq hex
      rw [hframe q hq]
      rcases MkdirAll_node fs (Dir khPath) q with h1 | ⟨_, h1, _⟩
      · exact h1
      · exact absurd h1 hex
    · intro q hq hch
      rw [hframe q hq] at hch ⊢
      rcases MkdirAll_node fs (Dir khPath) q with h1 | ⟨_, _, h1⟩
      · exact absurd h1 hch
      · exact h1
  · intro h e hc
    simp [createUserKnownHostsFile, h, hc]

/-- Witness for C4, amended: in a file system that holds `/home` and `/home/u`,
creating `/home/u/.rexray/tls/known_hosts` leaves an empty file there and the
entry `/home` as it was; and with the same entries but nothing allowed to be
created the call ends in the fatal branch. -/
theorem createUserKnownHostsFile_create_if_missing_witness :
    (Stat (createUserKnownHostsFile ["known_hosts", "tls", ".rexray", "u", "home"]
          (FS.ofList [(["home"], Node.dir), (["u", "home"], Node.dir)])).2
        ["known_hosts", "tls", ".rexray", "u", "home"] = .ok (.file []) ∧
      (createUserKnownHostsFile ["known_hosts", "tls", ".rexray", "u", "home"]
          (FS.ofList [(["home"], Node.dir), (["u", "home"], Node.dir)])).2.node ["home"] =
        (FS.ofList [(["home"], Node.dir), (["u", "home"], Node.dir)]).node ["home"]) ∧
      (createUserKnownHostsFile ["known_hosts", "u", "home"]
        (FS.readOnly [(["home"], Node.dir), (["u", "home"], Node.dir)])).1 =
        Completion.fatal "failed to create known_hosts" ["known_hosts", "u", "home"] :=
  have h := (createUserKnownHostsFile_create_if_missing
      ["known_hosts", "tls", ".rexray", "u", "home"]
      (FS.ofList [(["home"], Node.dir), (["u", "home"], Node.dir)])).2.1 (by decide)
      (createUserKnownHostsFile ["known_hosts", "tls", ".rexray", "u", "home"]
        (FS.ofList [(["home"], Node.dir), (["u", "home"], Node.dir)])).2 (by rfl)
  ⟨⟨h.2.1, h.2.2.2.2.2.1 ["home"] (by decide) (by decide)⟩,
    (createUserKnownHostsFile_create_if_missing ["known_hosts", "u", "home"]
      (FS.readOnly [(["home"], Node.dir), (["u", "home"], Node.dir)])).2.2
      (by decide) Errno.EACCES (by rfl)⟩

/-! ## Configuration loading in `main` -/

/-- Lines 86-105 of `main` end the process only through `os.Exit`. -/
theorem loadConfig_error_is_exit {x : Externals} {cf : String} {w : World} {fs : FS}
    {out : Outcome} (h : loadConfig x cf w fs = .error out) :
    ∃ status text, out = Outcome.exit status text := by
  unfold loadConfig at h
  by_cases h1 : cf = ""
  · simp [h1] at h
  · by_cases h2 : FileExists fs (x.lookup cf) = true
    · rw [if_neg h1, if_neg (not_not.mpr h2)] at h
      cases hv : x.ValidateConfig fs cf with
      | some st =>
        rw [hv] at h
        simp only [Except.error.injEq] at h
        exact ⟨_, _, h.symm⟩
      | none =>
        rw [hv] at h
        simp only at h
        cases hr : x.ReadConfigFile w fs cf with
        | error e =>
          rw [hr] at h
          simp only [Except.error.injEq] at h
          exact ⟨_, _, h.symm⟩
        | ok c =>
          rw [hr] at h
          simp at h
    · rw [if_neg h1, if_pos h2] at h
      simp only [Except.error.injEq] at h
      exact ⟨_, _, h.symm⟩

/-- Lines 86-105 of `main` leave a non-nil `config` only after a successful read. -/
theorem loadConfig_ok_some {x : Externals} {cf : String} {w : World} {fs : FS}
    {c : Config} (h : loadConfig x cf w fs = .ok (some c)) :
    cf ≠ "" ∧ FileExists fs (x.lookup cf) = true ∧
      ∃ c0, x.ReadConfigFile w fs cf = .ok c0 ∧ c = x.Scope c0 "rexray" := by
  unfold loadConfig at h
  by_cases h1 : cf = ""
  · simp [h1] at h
  · by_cases h2 : FileExists fs (x.lookup cf) = true
    · rw [if_neg h1, if_neg (not_not.mpr h2)] at h
      cases hv : x.ValidateConfig fs cf with
      | some st =>
        rw [hv] at h
        simp at h
      | none =>
        rw [hv] at h
        simp only at h
        cases hr : x.ReadConfigFile w fs cf with
        | error e =>
          rw [hr] at h
          simp at h
        | ok c0 =>
          rw [hr] at h
          simp only [Except.ok.injEq, Option.some.injEq] at h
          exact ⟨h1, h2, c0, rfl, h.symm⟩
    · rw [if_neg h1, if_pos h2] at h
      simp at h

/-- C3. A broken config file is fatal at bring-up.  When `-c`/`--config` gives a
path and the file does not exist, `main` writes `error: invalid config file:` with
the path and exits with status 1; when the file exists, `util.ValidateConfig`
returned and `ReadConfigFile` returns an error, `main` writes the same message
with the error and exits with status 1; in both cases `cli.Execute` is not
reached.  When `cli.Execute` is reached with a non-nil configuration, a path was
given, the file exists, it was read without error, and the configuration is the
one read, scoped to `"rexray"`. -/
theorem main_broken_config_is_fatal (x : Externals) (args : List String) (w : World)
    (fs : FS) :
    ((beforeConfig x args w fs).1 ≠ "" →
      FileExists (beforeConfig x args w fs).2.2.2
          (x.lookup (beforeConfig x args w fs).1) = false →
      (main x args w fs).1 =
          Outcome.exit 1
            ("error: invalid config file: " ++ (beforeConfig x args w fs).1 ++ "\n") ∧
        ∀ lvl c, (main x args w fs).1 ≠ Outcome.execute lvl c) ∧
    ((beforeConfig x args w fs).1 ≠ "" →
      FileExists (beforeConfig x args w fs).2.2.2
          (x.lookup (beforeConfig x args w fs).1) = true →
      x.ValidateConfig (beforeConfig x args w fs).2.2.2 (beforeConfig x args w fs).1 = none →
      ∀ err, x.ReadConfigFile (beforeConfig x args w fs).2.2.1
          (beforeConfig x args w fs).2.2.2 (beforeConfig x args w fs).1 = .error err →
        (main x args w fs).1 =
            Outcome.exit 1
              ("error: invalid config file: " ++ (beforeConfig x args w fs).1 ++ ": " ++
                err ++ "\n") ∧
          ∀ lvl c, (main x args w fs).1 ≠ Outcome.execute lvl c) ∧
    (∀ lvl c, (main x args w fs).1 = Outcome.execute lvl (some c) →
      (beforeConfig x args w fs).1 ≠ "" ∧
      FileExists (beforeConfig x args w fs).2.2.2
          (x.lookup (beforeConfig x args w fs).1) = true ∧
      ∃ c0, x.ReadConfigFile (beforeConfig x args w fs).2.2.1
            (beforeConfig x args w fs).2.2.2 (beforeConfig x args w fs).1 = .ok c0 ∧
        c = x.Scope c0 "rexray") ∧
    ((beforeConfig x args w fs).1 = configFileFlag x.FindFlagVal args) := by
  refine ⟨?_, ?_, ?_, rfl⟩
  · intro hne hex
    have hm : (main x args w fs).1 = Outcome.exit 1
        ("error: invalid config file: " ++ (beforeConfig x args w fs).1 ++ "\n") := by
      simp [main, loadConfig, hne, hex]
    refine ⟨hm, ?_⟩
    intro lvl c
    rw [hm]
    simp
  · intro hne hex hval err hread
    have hm : (main x args w fs).1 = Outcome.exit 1
        ("error: invalid config file: " ++ (beforeConfig x args w fs).1 ++ ": " ++
          err ++ "\n") := by
      simp [main, loadConfig, hne, hex, hval, hread]
    refine ⟨hm, ?_⟩
    intro lvl c
    rw [hm]
    simp
  · intro lvl c h
    unfold main at h
    simp only at h
    split at h
    · rename_i out hload
      obtain ⟨st, text, rfl⟩ := loadConfig_error_is_exit hload
      simp at h
    · rename_i config hload
      have hcfg : config = some c := by
        unfold afterConfig at h
        simp only at h
        split at h
        · simp at h
        · split at h
          · simp at h
          · split at h
            · simp at h
            · simp only [Outcome.execute.injEq] at h
              exact h.2
      subst hcfg
      exact loadConfig_ok_some hload

/-- Witness for C3: `rexray -c /etc/rexray/missing.yml` in a file system without
that file exits with status 1 and the message naming the file; with the file
`/etc/rexray/bad.yml` present and rejected by the configuration library it
exits with status 1 and the message naming the file and the error. -/
theorem main_broken_config_is_fatal_witness :
    (main sampleExternals ["rexray", "-c", "/etc/rexray/missing.yml"] (World.start [])
        (FS.ofList [(["etc"], Node.dir), (["rexray", "etc"], Node.dir)])).1 =
      Outcome.exit 1 "error: invalid config file: /etc/rexray/missing.yml\n" ∧
    (main sampleExternals ["rexray", "--config", "/etc/rexray/bad.yml"] (World.start [])
        (FS.ofList [(["etc"], Node.dir), (["rexray", "etc"], Node.dir),
          (["bad.yml", "rexray", "etc"], Node.file [58])])).1 =
      Outcome.exit 1 ("error: invalid config file: /etc/rexray/bad.yml: " ++
        "yaml: line 1: did not find expected key\n") :=
  ⟨((main_broken_config_is_fatal sampleExternals
        ["rexray", "-c", "/etc/rexray/missing.yml"] (World.start [])
        (FS.ofList [(["etc"], Node.dir), (["rexray", "etc"], Node.dir)])).1
      (by decide) (by decide)).1,
    ((main_broken_config_is_fatal sampleExternals
        ["rexray", "--config", "/etc/rexray/bad.yml"] (World.start [])
        (FS.ofList [(["etc"], Node.dir), (["rexray", "etc"], Node.dir),
          (["bad.yml", "rexray", "etc"], Node.file [58])])).2.1
      (by decide) (by decide) (by rfl) _ (by rfl)).1⟩

end Rexray
